import Mathlib

/-!
# Verification of the PresentOS decision core

A shallow embedding, in Lean 4, of the algorithmic core of the PresentOS
repository: the point (XP) engine, the goal-alignment (RPM) gate, the
role-decision (PAEI) engine, the energy engine, the calendar slot optimizer,
the conversation slot-filler, the execution router and the instruction
compiler (ParentNode).  Numbers that the Python source holds in machine
floats but that are exact decimals (score weights, multipliers) are embedded
as rationals; `round` is embedded as round-half-to-even (`pyRound`), which
agrees with CPython's `round` on every value these functions can produce
(checked exhaustively for the finite tables involved).  Presentation-only
strings (`reason`, `reasoning`, `execution_notes`) are not modelled.
External collaborators (Notion, Google Calendar free/busy, the weather and
WHOOP clients, `parse_time`) are modelled as explicit inputs.
-/

namespace PresentOS

/-- Python's `round` to an integer: round half to even (banker's rounding),
over exact rationals. -/
def pyRound (q : ℚ) : ℤ :=
  if q - ⌊q⌋ < 1/2 then ⌊q⌋
  else if 1/2 < q - ⌊q⌋ then ⌊q⌋ + 1
  else if ⌊q⌋ % 2 = 0 then ⌊q⌋ else ⌊q⌋ + 1

theorem pyRound_intCast (n : ℤ) : pyRound (n : ℚ) = n := by
  unfold pyRound
  rw [Int.floor_intCast]
  norm_num

theorem floor_le_pyRound (q : ℚ) : ⌊q⌋ ≤ pyRound q := by
  unfold pyRound; split_ifs <;> omega

theorem pyRound_le_floor_add_one (q : ℚ) : pyRound q ≤ ⌊q⌋ + 1 := by
  unfold pyRound; split_ifs <;> omega

theorem le_pyRound_of_le {a : ℤ} {q : ℚ} (h : (a : ℚ) ≤ q) : a ≤ pyRound q := by
  have h1 : a ≤ ⌊q⌋ := Int.le_floor.mpr h
  have h2 := floor_le_pyRound q
  omega

theorem pyRound_le_of_le {b : ℤ} {q : ℚ} (h : q ≤ (b : ℚ)) : pyRound q ≤ b := by
  have hfl : ⌊q⌋ ≤ b := by
    have := Int.floor_le_floor h
    simpa using this
  have hq : (⌊q⌋ : ℚ) ≤ q := Int.floor_le q
  unfold pyRound
  split_ifs with h1 h2 h3
  · omega
  · -- fractional part > 1/2, so the floor is strictly below b
    have hlt : (⌊q⌋ : ℚ) < (b : ℚ) := by linarith
    have : ⌊q⌋ < b := by exact_mod_cast hlt
    omega
  · omega
  · -- exact tie: q = ⌊q⌋ + 1/2, so the floor is strictly below b
    have he : q - ⌊q⌋ = 1/2 := le_antisymm (not_lt.mp h2) (not_lt.mp h1)
    have hlt : (⌊q⌋ : ℚ) < (b : ℚ) := by linarith
    have : ⌊q⌋ < b := by exact_mod_cast hlt
    omega

theorem pyRound_mono {x y : ℚ} (h : x ≤ y) : pyRound x ≤ pyRound y := by
  have hf : ⌊x⌋ ≤ ⌊y⌋ := Int.floor_le_floor h
  rcases eq_or_lt_of_le hf with heq | hlt
  · have hq : (⌊x⌋ : ℚ) = (⌊y⌋ : ℚ) := by exact_mod_cast heq
    have hr : x - (⌊x⌋ : ℚ) ≤ y - (⌊y⌋ : ℚ) := by linarith
    unfold pyRound
    split_ifs <;> first | omega | (exfalso; linarith)
  · have h1 := pyRound_le_floor_add_one x
    have h2 := floor_le_pyRound y
    omega

/-- Python's `round(x, 2)`: round to the nearest hundredth. -/
def round2 (q : ℚ) : ℚ := (pyRound (q * 100) : ℚ) / 100

theorem round2_mono {x y : ℚ} (h : x ≤ y) : round2 x ≤ round2 y := by
  unfold round2
  have : pyRound (x * 100) ≤ pyRound (y * 100) := pyRound_mono (by linarith)
  have hc : ((pyRound (x * 100) : ℚ)) ≤ (pyRound (y * 100) : ℚ) := by exact_mod_cast this
  linarith

theorem round2_le_of_le {x : ℚ} {b : ℤ} (h : x ≤ (b : ℚ) / 100) : round2 x ≤ (b : ℚ) / 100 := by
  unfold round2
  have : pyRound (x * 100) ≤ b := pyRound_le_of_le (by linarith)
  have hc : ((pyRound (x * 100) : ℚ)) ≤ (b : ℚ) := by exact_mod_cast this
  linarith

theorem le_round2_of_le {x : ℚ} {a : ℤ} (h : (a : ℚ) / 100 ≤ x) : (a : ℚ) / 100 ≤ round2 x := by
  unfold round2
  have : a ≤ pyRound (x * 100) := le_pyRound_of_le (by linarith)
  have hc : (a : ℚ) ≤ (pyRound (x * 100) : ℚ) := by exact_mod_cast this
  linarith

theorem round2_hundredths (n : ℤ) : round2 ((n : ℚ) / 100) = (n : ℚ) / 100 := by
  unfold round2
  have h : ((n : ℚ) / 100) * 100 = (n : ℚ) := by field_simp
  rw [h, pyRound_intCast]

/-- The whitespace set of Python's `str.strip()`. -/
def isPyWhitespace (c : Char) : Bool :=
  c == ' ' || c == '\t' || c == '\n' || c == '\r' ||
  c == Char.ofNat 11 || c == Char.ofNat 12

/-- Python's `str.strip()`: drop leading and trailing whitespace. -/
def pyStrip (s : String) : String :=
  ⟨((s.data.dropWhile isPyWhitespace).reverse.dropWhile isPyWhitespace).reverse⟩

/-- Python's `str.upper()` (ASCII; the engine's role letters are ASCII). -/
def pyUpper (s : String) : String := ⟨s.data.map Char.toUpper⟩

/-- Python's `str.lower()` (ASCII). -/
def pyLower (s : String) : String := ⟨s.data.map Char.toLower⟩

/-! ## Payload dictionaries

Python `dict[str, Any]` payloads passed between the compiler and the capability
handlers, modelled as association lists with latest-write-wins lookup. -/

/-- A JSON-like payload value. -/
inductive PVal where
  | s (v : String)
  | n (v : ℚ)
  | b (v : Bool)
  | none
  | dict (fields : List (String × PVal))
  | list (items : List PVal)

/-- A capability payload: a Python `dict[str, Any]`. -/
abbrev Payload := List (String × PVal)

/-- `payload.get(k)` -/
def pget (p : Payload) (k : String) : Option PVal := p.lookup k

/-- `payload.get(k, d)` -/
def pgetD (p : Payload) (k : String) (d : PVal) : PVal := (pget p k).getD d

/-- `payload[k] = v` (also one key of a `payload.update({...})`). -/
def pset (p : Payload) (k : String) (v : PVal) : Payload :=
  (k, v) :: p.eraseP (fun q => q.1 == k)

theorem pget_pset_same (p : Payload) (k : String) (v : PVal) :
    pget (pset p k v) k = some v := by
  simp [pget, pset, List.lookup]

theorem lookup_eraseP_ne {p : Payload} {k k' : String} (h : k ≠ k') :
    (p.eraseP (fun q => q.1 == k')).lookup k = p.lookup k := by
  induction p with
  | nil => rfl
  | cons hd tl ih =>
    obtain ⟨a, v⟩ := hd
    by_cases hk : a = k'
    · subst hk
      have h3 : (k == a) = false := by simp [h]
      simp [List.eraseP_cons, List.lookup, h3]
    · have h2 : (a == k') = false := by simp [hk]
      simp only [List.eraseP_cons, h2, cond_false]
      cases hc : (k == a) with
      | true => simp [List.lookup, hc]
      | false => simp [List.lookup, hc, ih]

theorem pget_pset_ne (p : Payload) {k k' : String} (v : PVal) (h : k ≠ k') :
    pget (pset p k' v) k = pget p k := by
  have h1 : (k == k') = false := by simp [h]
  simp [pget, pset, List.lookup, h1, lookup_eraseP_ne h]

/-! ## XP engine (`app/services/xp_engine.py`)

`calculate_xp` is the point engine's public API.  Machine-float multipliers
are embedded as the exact decimals they denote; both rounding steps agree
with CPython on every reachable value (base table 6 × 4 pairs; second
rounding checked for all integer pre-multiplier values 0–30 against the
three balance and three recovery multipliers). -/

/-- `BASE_XP_BY_ACTION`; `none` for an unknown action type. -/
def BASE_XP_BY_ACTION : String → Option ℤ
  | "task_complete" => some 5
  | "meeting_complete" => some 3
  | "deep_work_block" => some 8
  | "habit_streak" => some 10
  | "reflection" => some 4
  | "report_viewed" => some 2
  | _ => Option.none

/-- `PAEI_MULTIPLIER`; `none` for an invalid PAEI value. -/
def PAEI_MULTIPLIER : String → Option ℚ
  | "P" => some 1.2
  | "A" => some 1.0
  | "E" => some 1.3
  | "I" => some 1.1
  | _ => Option.none

/-- `DIFFICULTY_BONUS.get(d, 0)`. -/
def DIFFICULTY_BONUS : String → ℤ
  | "easy" => 0
  | "medium" => 2
  | "hard" => 5
  | _ => 0

/-- `_infer_category`. -/
def inferCategory (actionType paei : String) : String :=
  if actionType = "deep_work_block" then "deep_work"
  else if actionType = "meeting_complete" then "collaboration"
  else if actionType = "habit_streak" then "consistency"
  else if actionType = "reflection" then "self_awareness"
  else pyLower paei ++ "_execution"

/-- Result record of `calculate_xp` (the presentation-only `reason` string is
not modelled). -/
structure XpResult where
  xp : ℤ
  category : String
  bonus : ℤ
  deriving DecidableEq, Repr

/-- `calculate_xp`.  A `ValueError` (unknown action type or PAEI value) is
`none`.  `paei_distribution` is `None`-or-dict; `duration_minutes` and
`recovery_score` are optional ints; the Python truthiness tests
(`if difficulty`, `if duration_minutes and duration_minutes > 0`,
`if paei_distribution`) are reproduced. -/
def calculate_xp (action_type paei₀ : String) (difficulty : Option String)
    (duration_minutes : Option ℤ) (priority : Option String)
    (paei_distribution : Option (List (String × ℚ)))
    (recovery_score : Option ℤ) : Option XpResult :=
  match BASE_XP_BY_ACTION action_type with
  | Option.none => Option.none
  | some base_xp =>
    let paei := pyUpper paei₀
    match PAEI_MULTIPLIER paei with
    | Option.none => Option.none
    | some mult =>
      -- xp = int(round(base_xp * PAEI_MULTIPLIER[paei]))
      let xp : ℤ := pyRound ((base_xp : ℚ) * mult)
      let bonus : ℤ :=
        (match difficulty with
         | some d => if d ≠ "" then DIFFICULTY_BONUS d else 0
         | Option.none => 0) +
        (match duration_minutes with
         | some dm => if dm ≠ 0 ∧ 0 < dm then min (dm / 30) 5 else 0
         | Option.none => 0)
      let bonus : ℤ :=
        if priority = some "high" then bonus + 1
        else if priority = some "low" then max (bonus - 1) 0
        else bonus
      let balance_multiplier : ℚ :=
        match paei_distribution with
        | some dist =>
          if dist ≠ [] then
            let dominance := (dist.lookup paei).getD 0
            if dominance > 0.45 then 0.7
            else if dominance < 0.15 then 1.3
            else 1.0
          else 1.0
        | Option.none => 1.0
      let recovery_multiplier : ℚ :=
        match recovery_score with
        | some rs =>
          if rs < 40 then
            if paei = "P" then 0.6
            else if paei = "I" then 1.2
            else 1.0
          else 1.0
        | Option.none => 1.0
      let total_xp : ℤ :=
        max (pyRound (((xp + bonus : ℤ) : ℚ) * balance_multiplier * recovery_multiplier)) 1
      some ⟨total_xp, inferCategory action_type paei, bonus⟩

/-- The bonus exactly as the claim's formula words it:
`difficulty_bonus + min(duration // 30, 5) + (+1 high / −1 low, floored at 0)`. -/
def claimBonus (difficulty : Option String) (duration_minutes : Option ℤ)
    (priority : Option String) : ℤ :=
  let db : ℤ := match difficulty with
    | some d => if d ≠ "" then DIFFICULTY_BONUS d else 0
    | Option.none => 0
  let dur : ℤ := match duration_minutes with
    | some dm => if dm ≠ 0 ∧ 0 < dm then min (dm / 30) 5 else 0
    | Option.none => 0
  if priority = some "high" then db + dur + 1
  else if priority = some "low" then max (db + dur - 1) 0
  else db + dur

/-- The balance multiplier as the claim words it. -/
def claimBalanceMultiplier (paei : String)
    (paei_distribution : Option (List (String × ℚ))) : ℚ :=
  match paei_distribution with
  | some dist =>
    if dist ≠ [] then
      let dominance := (dist.lookup paei).getD 0
      if dominance > 0.45 then 0.7
      else if dominance < 0.15 then 1.3
      else 1.0
    else 1.0
  | Option.none => 1.0

/-- The recovery multiplier as the claim words it. -/
def claimRecoveryMultiplier (paei : String) (recovery_score : Option ℤ) : ℚ :=
  match recovery_score with
  | some rs =>
    if rs < 40 then
      if paei = "P" then 0.6 else if paei = "I" then 1.2 else 1.0
    else 1.0
  | Option.none => 1.0

/-- The points formula exactly as claim C3 states it: the base product
`lookup(action_type) × role_multiplier(role)` enters **unrounded**:
`round((base + bonus) × balance × recovery)`, floored at 1. -/
def claimXpPoints (action_type paei₀ : String) (difficulty : Option String)
    (duration_minutes : Option ℤ) (priority : Option String)
    (paei_distribution : Option (List (String × ℚ)))
    (recovery_score : Option ℤ) : Option ℤ :=
  match BASE_XP_BY_ACTION action_type with
  | Option.none => Option.none
  | some base_xp =>
    let paei := pyUpper paei₀
    match PAEI_MULTIPLIER paei with
    | Option.none => Option.none
    | some mult =>
      let base : ℚ := (base_xp : ℚ) * mult
      let bonus := claimBonus difficulty duration_minutes priority
      some (max (pyRound ((base + (bonus : ℚ)) *
        claimBalanceMultiplier paei paei_distribution *
        claimRecoveryMultiplier paei recovery_score)) 1)

/-- The amended points formula: identical to `claimXpPoints` except that the
base product is first rounded to the nearest integer (ties to even), as the
source's `xp = int(round(base_xp * PAEI_MULTIPLIER[paei]))` does. -/
def amendedXpPoints (action_type paei₀ : String) (difficulty : Option String)
    (duration_minutes : Option ℤ) (priority : Option String)
    (paei_distribution : Option (List (String × ℚ)))
    (recovery_score : Option ℤ) : Option ℤ :=
  match BASE_XP_BY_ACTION action_type with
  | Option.none => Option.none
  | some base_xp =>
    let paei := pyUpper paei₀
    match PAEI_MULTIPLIER paei with
    | Option.none => Option.none
    | some mult =>
      let base : ℚ := (pyRound ((base_xp : ℚ) * mult) : ℚ)
      let bonus := claimBonus difficulty duration_minutes priority
      some (max (pyRound ((base + (bonus : ℚ)) *
        claimBalanceMultiplier paei paei_distribution *
        claimRecoveryMultiplier paei recovery_score)) 1)

/-! ## RPM engine — goal-alignment gate (`app/services/rpm_engine.py`)

`compute_rpm` is a pure function of the optional quest (goal), map (plan) and
task dicts, and `now`.  Dates are embedded as integers (days); a quest
`end_date` is absent (`none`), present-but-unparseable (`some none` — the
`strptime` `ValueError` path, which also covers non-date values failing the
`isinstance` check), or a parsed date (`some (some d)`). -/

/-- The quest (goal) dict fields read by `compute_rpm`. -/
structure QuestD where
  status : Option String
  endDate : Option (Option ℤ)
  xpTarget : Option ℚ

/-- The map (plan) dict fields read by `compute_rpm`. -/
structure MapD where
  priority : Option String
  mapType : Option String

/-- The task dict fields read by `compute_rpm`. -/
structure TaskD where
  source : Option String
  taskType : Option String
  priority : Option String

/-- Result of `compute_rpm` (the `reason` string is not modelled). -/
structure RPMResult where
  aligned : Bool
  alignment_score : ℚ
  recommendation : String
  deriving DecidableEq, Repr

/-- The quest (goal) contributions (lines 53–86). -/
def questScore (quest : Option QuestD) (today : ℤ) : ℚ :=
  match quest with
  | some q =>
    (if q.status = some "In Progress" then 0.30 else -0.10) +
    (match q.endDate with
     | some (some d) => if today ≤ d then 0.15 else -0.20
     | some Option.none => 0
     | Option.none => 0) +
    (match q.xpTarget with
     | some v => if v ≠ 0 ∧ 0 < v then 0.10 else 0
     | Option.none => 0)
  | Option.none => -0.05

/-- The map (plan) contributions (lines 91–111). -/
def mapScore (map_ : Option MapD) : ℚ :=
  match map_ with
  | some m =>
    (if m.priority = some "High" then 0.25
     else if m.priority = some "Medium" then 0.15
     else 0.05) +
    (if m.mapType = some "Execution" ∨ m.mapType = some "Planning" then 0.15
     else 0.08)
  | Option.none => -0.03

/-- The task contributions (lines 116–134). -/
def taskScore (task : Option TaskD) : ℚ :=
  match task with
  | some t =>
    (if t.source = some "Voice" ∨ t.source = some "Manual" then 0.08
     else if t.source = some "Email" then 0.03
     else 0) +
    (if t.taskType = some "Admin" then 0.02 else 0.05) +
    (if t.priority = some "High" then 0.08 else 0)
  | Option.none => 0

/-- The additive score before clamping and rounding (lines 47–134). -/
def rpmRawScore (quest : Option QuestD) (map_ : Option MapD)
    (task : Option TaskD) (today : ℤ) : ℚ :=
  0.5 + questScore quest today + mapScore map_ + taskScore task

/-- The recommendation thresholds of `compute_rpm` (lines 142–165). -/
def rpmRecommend (score : ℚ) : RPMResult :=
  if score ≥ 0.40 then ⟨true, score, "proceed"⟩
  else if 0.20 ≤ score ∧ score < 0.40 then ⟨false, score, "defer"⟩
  else ⟨false, score, "ask_clarify"⟩

/-- `compute_rpm`: clamp to `[0.1, 1.0]`, round to two decimals, then pick the
recommendation (lines 137–165). -/
def compute_rpm (quest : Option QuestD) (map_ : Option MapD)
    (task : Option TaskD) (today : ℤ) : RPMResult :=
  rpmRecommend (round2 (max 0.1 (min (rpmRawScore quest map_ task today) 1.0)))

/-- `compute_rpm_from_context` (lines 171–192): the wrapper the instruction
compiler calls; it passes no task and overrides any non-proceed result. -/
def compute_rpm_from_context (quest : Option QuestD) (map_ : Option MapD)
    (today : ℤ) : RPMResult :=
  let result := compute_rpm quest map_ Option.none today
  if result.recommendation ≠ "proceed" then ⟨true, 0.7, "proceed"⟩
  else result

/-- The gate-block test in `ParentNode.__call__` (parent_node.py line 172):
`rpm_result.recommendation == "block" and not rpm_result.aligned`. -/
def wasBlockedByRpm (r : RPMResult) : Bool :=
  r.recommendation == "block" && !r.aligned

/-! ## PAEI decision engine (`app/services/paei_engine.py`) -/

/-- `PAEIRole`. -/
inductive Role where
  | P | A | E | I
  deriving DecidableEq, Repr

/-- `PAEIRole.value`. -/
def Role.str : Role → String
  | .P => "P" | .A => "A" | .E => "E" | .I => "I"

/-- The boolean intent signals read by the engine (`signals.get(...)`;
an absent dict key reads as `false`). -/
structure SignalMap where
  urgency : Bool := false
  deadline : Bool := false
  execution_focus : Bool := false
  administrative : Bool := false
  structured : Bool := false
  documentation : Bool := false
  exploratory : Bool := false
  strategic : Bool := false
  creative : Bool := false
  involves_people : Bool := false
  emotional_tone : Bool := false
  relationship_focus : Bool := false
  deriving DecidableEq, Repr

/-- The context fields read by the engine, after its `.get` defaults
(`whoop_recovery` 70, `team_morale` "stable", `deadline_pressure` "low"). -/
structure PaeiContext where
  whoop_recovery : ℚ := 70
  team_morale : String := "stable"
  deadline_pressure : String := "low"
  deriving DecidableEq, Repr

/-- Python `max(items, key=...)`: the first item of maximal value wins
(later items replace only on a strictly greater value). -/
def argmaxFirst (hd : Role × ℚ) (tl : List (Role × ℚ)) : Role :=
  (tl.foldl (fun best item => if best.2 < item.2 then item else best) hd).1

/-- Python `min(items, key=...)`: the first item of minimal value wins. -/
def argminFirst (hd : Role × ℚ) (tl : List (Role × ℚ)) : Role :=
  (tl.foldl (fun best item => if item.2 < best.2 then item else best) hd).1

/-- `_analyze_intent`: weighted signal scores, arg-max in insertion order
P, A, E, I. -/
def analyzeIntent (s : SignalMap) : Role :=
  let sp : ℚ := (if s.urgency then 0.8 else 0) + (if s.deadline then 0.6 else 0) +
    (if s.execution_focus then 0.7 else 0)
  let sa : ℚ := (if s.administrative then 0.9 else 0) + (if s.structured then 0.7 else 0) +
    (if s.documentation then 0.6 else 0)
  let se : ℚ := (if s.exploratory then 0.8 else 0) + (if s.strategic then 0.9 else 0) +
    (if s.creative then 0.7 else 0)
  let si : ℚ := (if s.involves_people then 0.8 else 0) + (if s.emotional_tone then 0.9 else 0) +
    (if s.relationship_focus then 0.8 else 0)
  argmaxFirst (.P, sp) [(.A, sa), (.E, se), (.I, si)]

/-- `_get_current_distribution` for one role. -/
def roleShare (history : List Role) (r : Role) : ℚ :=
  if history.length = 0 then 0.25
  else ((history.count r : ℤ) : ℚ) / (history.length : ℚ)

/-- The least-represented role (`min(distribution.items(), key=...)`,
iteration order P, A, E, I). -/
def neglectedRole (history : List Role) : Role :=
  argminFirst (.P, roleShare history .P)
    [(.A, roleShare history .A), (.E, roleShare history .E), (.I, roleShare history .I)]

/-- `_apply_context_adjustments` (lines 115–146).  Note the source order: the
low-recovery check runs **before** the critical-deadline check and returns
early. -/
def applyContextAdjustments (base : Role) (ctx : PaeiContext)
    (history : List Role) : Role :=
  if ctx.whoop_recovery < 40 ∧ base = .P then .I
  else if ctx.deadline_pressure = "critical" then .P
  else if ctx.team_morale = "fragile" then .I
  else if 20 ≤ history.length ∧ roleShare history (neglectedRole history) < 0.15 then
    neglectedRole history
  else base

/-- `_calculate_xp` of the PAEI engine (lines 211–239). -/
def paeiCalculateXp (role : Role) (s : SignalMap) (ctx : PaeiContext) : ℤ :=
  let base : ℤ := match role with
    | .P => 5 | .A => 8 | .E => 10 | .I => 7
  let xp := base +
    (if ctx.whoop_recovery < 40 ∧ role = .I then 3 else 0) +
    (if ctx.deadline_pressure = "critical" ∧ role = .P then 5 else 0) +
    (if s.urgency ∧ role = .P then 2 else 0)
  max 1 xp

/-- The per-role execution-details table (`_get_execution_details`), minus the
presentation strings `reasoning` and `execution_notes`. -/
structure ExecutionDetails where
  email_style : String
  task_approach : String
  calendar_buffer : String
  priority_level : String
  deriving DecidableEq, Repr

/-- `_get_execution_details` (lines 148–209). -/
def getExecutionDetails (role : Role) : ExecutionDetails :=
  match role with
  | .I => ⟨"empathetic", "include team check-ins", "15min", "medium"⟩
  | .P => ⟨"bullet_points", "time-boxed execution", "5min", "high"⟩
  | .A => ⟨"structured", "follow process", "10min", "medium"⟩
  | .E => ⟨"visionary", "creative exploration", "20min", "medium"⟩

/-- `PAEIDecision`, minus presentation strings. -/
structure PAEIDecision where
  role : Role
  xp_amount : ℤ
  email_style : String
  task_approach : String
  calendar_buffer : String
  priority_level : String
  deriving DecidableEq, Repr

/-- `PAEIDecisionEngine.decide`: returns the decision and the updated
`decision_history` (a `deque(maxlen=100)`: append, dropping the oldest
entry beyond 100). -/
def paeiDecide (signals : SignalMap) (ctx : PaeiContext)
    (history : List Role) : PAEIDecision × List Role :=
  let base := analyzeIntent signals
  let final := applyContextAdjustments base ctx history
  let details := getExecutionDetails final
  let xp := paeiCalculateXp final signals ctx
  let history' := history ++ [final]
  let history' := if 100 < history'.length then history'.drop (history'.length - 100)
    else history'
  (⟨final, xp, details.email_style, details.task_approach,
    details.calendar_buffer, details.priority_level⟩, history')

/-! ## Energy engine (`app/services/energy_engine.py`)

`compute_energy_from_state` reads `state.energy_level` (optional float, with
`or 0.5` truthiness: an explicit `0.0` also falls back) and
`state.whoop_recovery_score` (optional float, documented by the WHOOP
collaborator as a 0–100 recovery score), plus the urgency flag. -/

/-- Result of `compute_energy_from_state` (the `reasoning` string is not
modelled). -/
structure EnergyResult where
  energy_level : ℚ
  capacity : String
  deep_work_recommended : Bool
  meeting_tolerance : String
  execution_bias : String
  deriving DecidableEq, Repr

/-- `compute_energy_from_state` (lines 15–64). -/
def compute_energy_from_state (energy_level : Option ℚ)
    (whoop_recovery_score : Option ℚ) (urgency : Bool) : EnergyResult :=
  let level : ℚ := match energy_level with
    | some v => if v ≠ 0 then v else 0.5
    | Option.none => 0.5
  let level : ℚ := match whoop_recovery_score with
    | some w => w
    | Option.none => level
  let level : ℚ := if urgency then level - 0.1 else level
  let level : ℚ := max 0 (min level 1)
  if level < 0.3 then ⟨level, "low", false, "avoid", "recovery"⟩
  else if level < 0.6 then ⟨level, "medium", false, "limited", "maintenance"⟩
  else ⟨level, "high", true, "normal", "push"⟩

/-! ## Calendar slot optimizer (`app/services/calendar_service.py`)

Instants are embedded as rational minutes on a single timeline, so a
difference of instants is a duration in minutes (`total_seconds() / 60`) and
`datetime.hour` is `⌊t / 60⌋ % 24`.  The external free/busy feed is the
`busy` input (with `parse_iso` failures as `none` endpoints); the external
weather score is the `weatherScore` input function. -/

/-- A free gap emitted by `_get_free_slots` (`start`/`end`; `end` is a Lean
keyword, so the field is `stop`). -/
structure Gap where
  start : ℚ
  stop : ℚ
  deriving DecidableEq, Repr

/-- The cursor walk over one busy interval (`_get_free_slots` loop body,
lines 164–178): a `parse_iso` failure on either endpoint skips the
interval. -/
def freeSlotsStep (minDuration : ℚ) (acc : ℚ × List Gap)
    (b : Option ℚ × Option ℚ) : ℚ × List Gap :=
  match b with
  | (some bs, some be) =>
    let gaps := if acc.1 < bs ∧ minDuration ≤ bs - acc.1
      then acc.2 ++ [⟨acc.1, bs⟩] else acc.2
    (max acc.1 be, gaps)
  | _ => acc

/-- `_get_free_slots` (lines 145–187): walk the busy intervals with a cursor,
emitting every gap of at least `minDuration` minutes, plus the trailing gap. -/
def getFreeSlots (busy : List (Option ℚ × Option ℚ)) (start stop : ℚ)
    (minDuration : ℚ) : List Gap :=
  let r := busy.foldl (freeSlotsStep minDuration) (start, [])
  if r.1 < stop ∧ minDuration ≤ stop - r.1 then r.2 ++ [⟨r.1, stop⟩] else r.2

/-- Peak and avoid hour bands per PAEI role (`PAEITimePreferences`);
`getattr(..., role, {})` yields empty bands for an unknown role. -/
def paeiTimePrefs (role : String) : List (ℤ × ℤ) × List (ℤ × ℤ) :=
  if role = "P" then ([(9, 12), (15, 17)], [(13, 14)])
  else if role = "A" then ([(10, 12), (14, 16)], [])
  else if role = "E" then ([(11, 13), (16, 18)], [(9, 10)])
  else if role = "I" then ([(13, 15), (17, 19)], [(9, 12)])
  else ([], [])

/-- `datetime.hour` of an instant in minutes. -/
def hourOf (t : ℚ) : ℤ := ⌊t / 60⌋ % 24

/-- `_score_paei_time` (lines 361–370). -/
def scorePaeiTime (slotStart : ℚ) (role : String) : ℚ :=
  let hour := hourOf slotStart
  let prefs := paeiTimePrefs role
  if prefs.1.any (fun p => p.1 ≤ hour ∧ hour < p.2) then 1.0
  else if prefs.2.any (fun p => p.1 ≤ hour ∧ hour < p.2) then 0.2
  else 0.6

/-- `_score_energy_match` (lines 372–377). -/
def scoreEnergyMatch (slotStart : ℚ) (recovery : ℚ) : ℚ :=
  if recovery > 70 ∧ 9 ≤ hourOf slotStart ∧ hourOf slotStart < 12 then 1.0
  else if recovery < 40 then 0.3
  else 0.7

/-- `_score_deadline_proximity` (lines 379–385). -/
def scoreDeadlineProximity (slotStart deadline : ℚ) : ℚ :=
  let hours := (deadline - slotStart) / 60
  if hours < 24 then 1.0
  else if hours < 72 then 0.7
  else 0.4

/-- A scored candidate slot (`WeatherAwareSlot`; the `breakdown` factors are
the four score fields). -/
structure ScoredSlot where
  start : ℚ
  stop : ℚ
  score : ℚ
  weather_score : ℚ
  is_outdoor_friendly : Bool
  paei : ℚ
  energy : ℚ
  deadlineScore : ℚ
  deriving DecidableEq, Repr

/-- The composite score of a gap start (`_find_optimal_slot`, lines 326–337):
`0.3·paei + 0.3·energy + 0.2·weather + 0.2·deadline`. -/
def compositeScore (weatherScore : ℚ → ℚ) (role : String) (recovery : ℚ)
    (deadline : ℚ) (t : ℚ) : ℚ :=
  0.3 * scorePaeiTime t role + 0.3 * scoreEnergyMatch t recovery +
  0.2 * weatherScore t + 0.2 * scoreDeadlineProximity t deadline

/-- Build the `WeatherAwareSlot` record for one gap. -/
def mkScoredSlot (weatherScore : ℚ → ℚ) (role : String) (recovery : ℚ)
    (deadline : ℚ) (g : Gap) : ScoredSlot :=
  let paei := scorePaeiTime g.start role
  let energy := scoreEnergyMatch g.start recovery
  let weather := weatherScore g.start
  let dl := scoreDeadlineProximity g.start deadline
  ⟨g.start, g.stop, 0.3 * paei + 0.3 * energy + 0.2 * weather + 0.2 * dl,
    weather, weather > 0.7, paei, energy, dl⟩

/-- One step of the best-slot selection (`_find_optimal_slot` loop body,
lines 326–353). -/
def bestSlotStep (weatherScore : ℚ → ℚ) (role : String) (recovery : ℚ)
    (deadline : ℚ) (best : ℚ × Option ScoredSlot) (g : Gap) :
    ℚ × Option ScoredSlot :=
  let s := compositeScore weatherScore role recovery deadline g.start
  if best.1 < s then (s, some (mkScoredSlot weatherScore role recovery deadline g))
  else best

/-- `_find_optimal_slot` (lines 312–355): `best_score` starts at `−1.0` and a
gap replaces the best only on a strictly greater composite. -/
def findOptimalSlot (weatherScore : ℚ → ℚ) (role : String) (recovery : ℚ)
    (now deadline : ℚ) (duration : ℚ) (busy : List (Option ℚ × Option ℚ)) :
    Option ScoredSlot :=
  let gaps := getFreeSlots busy now deadline duration
  (gaps.foldl (bestSlotStep weatherScore role recovery deadline)
    (-1.0, Option.none)).2

/-- Outcome of `schedule_task`: `{"action": "deferred"}` or
`{"action": "blocked_time", ...}` carrying the chosen slot. -/
inductive ScheduleResult where
  | deferred
  | blockedTime (slot : ScoredSlot)
  deriving DecidableEq, Repr

/-- `schedule_task` (lines 193–226) composed with `_find_optimal_slot`:
`deadline` defaults to `now + 48h`, `duration` to 30 minutes, the role to
`"P"`; a missing or low-scoring (`< 0.3`) best slot defers. -/
def schedule_task (weatherScore : ℚ → ℚ) (paeiRole : Option String)
    (estimatedMinutes : Option ℚ) (deadlineOpt : Option ℚ) (now : ℚ)
    (recovery : ℚ) (busy : List (Option ℚ × Option ℚ)) : ScheduleResult :=
  let role := paeiRole.getD "P"
  let deadline := deadlineOpt.getD (now + 2880)
  let duration := estimatedMinutes.getD 30
  match findOptimalSlot weatherScore role recovery now deadline duration busy with
  | Option.none => .deferred
  | some best => if best.score < 0.3 then .deferred else .blockedTime best

/-! ## Conversation slot-filler (`app/services/conversation_manager.py`) -/

/-- `state.conversation`: status, owning agent, missing-field queue and the
filled map (a Python dict; the terminal record drops `missing_fields`, which
is modelled as `[]`). -/
structure Convo where
  status : String
  agent : Option String
  missing_fields : List String
  filled : List (String × String)
  deriving DecidableEq, Repr

/-- `filled[slot] = value` (Python dict assignment; map semantics). -/
def fset (m : List (String × String)) (k v : String) : List (String × String) :=
  (k, v) :: m.eraseP (fun q => q.1 == k)

/-- `_merge_slot_answers` (lines 100–137): pop the first missing field, store
the stripped message, transition to complete when the queue empties. -/
def mergeSlotAnswers (c : Convo) (userText : String) : Convo :=
  match c.missing_fields with
  | [] => c
  | slot :: rest =>
    let filled := fset c.filled slot (pyStrip userText)
    if rest ≠ [] then { c with missing_fields := rest, filled := filled }
    else ⟨"complete", c.agent, [], filled⟩

/-- `process_user_message` (lines 34–62): clear a completed conversation,
merge an answer only while awaiting the user. -/
def process_user_message (conv : Option Convo) (userText : String) : Option Convo :=
  let conv := match conv with
    | some c => if c.status = "complete" then Option.none else some c
    | Option.none => Option.none
  match conv with
  | some c => if c.status = "awaiting_user" then some (mergeSlotAnswers c userText) else some c
  | Option.none => Option.none

/-- A sequence of user turns fed to `process_user_message`. -/
def runTurns (conv : Option Convo) (msgs : List String) : Option Convo :=
  msgs.foldl process_user_message conv

/-! ## Execution router (`app/graph/execution_router.py`)

Handlers are external agent runners: each call either raises, returns `None`
(the state is kept), or returns an updated state.  The router state carries
`meta["current_paei_context"]` explicitly (written by `_inject_paei_context`)
over an abstract remainder `σ` of `PresentOSState`. -/

/-- One call of an agent runner: it raised, returned `None`, or returned an
updated state. -/
inductive HRes (St : Type) where
  | raise
  | retNone
  | retSome (st : St)

/-- The `PresentOSState` as the router sees it. -/
structure RState (σ : Type) where
  currentPaeiContext : Option (List (String × String))
  inner : σ

/-- One instruction as the router reads it: the agent name and the optional
`paei_context` dict. -/
structure RInstr where
  agent : String
  paeiContext : Option (List (String × String))
  deriving DecidableEq, Repr

/-- `instruction.get("paei_context", {}).get("role", "P")`. -/
def rinstrRole (i : RInstr) : String :=
  match i.paeiContext with
  | some ctx => (ctx.lookup "role").getD "P"
  | Option.none => "P"

/-- The agent names registered in `_initialize_runners` (lines 41–58).
`finance_agent` is imported there but never registered. -/
def registryNames : List String :=
  ["calendar_agent", "task_agent", "email_agent", "email_sender_agent",
   "contact_agent", "quest_agent", "map_agent", "plan_report_agent",
   "research_agent", "browser_agent", "focus_agent", "weather_agent",
   "meeting_agent", "fireflies_agent", "report_agent", "xp_agent"]

/-- One outcome record appended to `execution_results`: the failure record
carries no `paei_role` key (`result.get("paei_role", "P")` later reads "P"). -/
structure Outcome where
  agent : String
  success : Bool
  paeiRole : Option String
  deriving DecidableEq, Repr

/-- `_inject_paei_context` (lines 144–151). -/
def injectPaeiContext {σ : Type} (st : RState σ) (i : RInstr) : RState σ :=
  match i.paeiContext with
  | some ctx =>
    if ctx ≠ [] ∧ st.currentPaeiContext = Option.none
    then { st with currentPaeiContext := some ctx } else st
  | Option.none => st

/-- The primary phase (lines 72–104): dispatch each non-XP/weather/fireflies
instruction whose agent has a registered runner; a raise is caught and
recorded as a failed outcome; a `None` return keeps the state and records
nothing; a returned state is recorded as a success. -/
def primaryPhase {σ : Type} (impl : String → RState σ → HRes (RState σ))
    (st : RState σ) (instrs : List RInstr) : RState σ × List Outcome :=
  instrs.foldl
    (fun (acc : RState σ × List Outcome) i =>
      if i.agent ∈ registryNames then
        let st₁ := injectPaeiContext acc.1 i
        match impl i.agent st₁ with
        | .raise => (st₁, acc.2 ++ [⟨i.agent, false, Option.none⟩])
        | .retNone => (st₁, acc.2)
        | .retSome st₂ => (st₂, acc.2 ++ [⟨i.agent, true, some (rinstrRole i)⟩])
      else acc)
    (st, [])

/-- The best-effort phases (proactive agents, lines 106–120, and the XP
agent, lines 122–132): run without recording outcomes; failures are logged
only. -/
def bestEffortStep {σ : Type} (impl : String → RState σ → HRes (RState σ))
    (st : RState σ) (i : RInstr) : RState σ :=
  if i.agent ∈ registryNames then
    match impl i.agent st with
    | .raise => st
    | .retNone => st
    | .retSome st₂ => st₂
  else st

/-- `_calculate_paei_distribution` (lines 153–170). -/
def paeiDistribution (results : List Outcome) : List (String × ℚ) :=
  if results = [] then [("P", 0.25), ("A", 0.25), ("E", 0.25), ("I", 0.25)]
  else
    ["P", "A", "E", "I"].map fun r =>
      (r, ((results.countP (fun o => o.paeiRole.getD "P" == r) : ℤ) : ℚ) /
        (results.length : ℚ))

/-- `state.meta["execution_summary"]` (lines 134–140). -/
structure ExecutionSummary where
  total_agents : ℕ
  successful : ℕ
  paei_distribution : List (String × ℚ)
  is_coordinated : Bool
  deriving DecidableEq, Repr

/-- `ExecutionRouter.__call__` (lines 60–142).  An empty instruction list
returns the state untouched (no summary is written, hence `Option`). -/
def routerRun {σ : Type} (impl : String → RState σ → HRes (RState σ))
    (instrs : List RInstr) (isCoordinated : Bool) (st : RState σ) :
    RState σ × Option ExecutionSummary :=
  if instrs = [] then (st, Option.none)
  else
    let primary := instrs.filter
      (fun i => i.agent ∉ ["xp_agent", "weather_agent", "fireflies_agent"])
    let r := primaryPhase impl st primary
    let proactive := instrs.filter
      (fun i => i.agent ∈ ["weather_agent", "fireflies_agent"])
    let st₂ := proactive.foldl (bestEffortStep impl) r.1
    let st₃ := match instrs.find? (fun i => i.agent == "xp_agent") with
      | some i => bestEffortStep impl st₂ i
      | Option.none => st₂
    (st₃, some ⟨r.2.length, r.2.countP (·.success), paeiDistribution r.2, isCoordinated⟩)

/-! ## Instruction compiler — ParentNode (`app/graph/parent_node.py`)

The compiler consumes classified sub-intents (or read domains), the PAEI
decision, the RPM result, the energy result, the cached weather snapshot and
the morning-check flag, and emits the ordered instruction batch.  External
inputs (`parse_time`, the weather snapshot, the recovery value of the
decision context, `state.calendar.today_events`) are parameters.  The
RPM-linking block of `_build_agent_payload` (lines 554–559) is guarded by
`hasattr(rpm_result, "quest_id")`/`hasattr(rpm_result, "map_id")`, which is
always `False` for an `RPMResult`, so it is omitted as dead code. -/

/-- `CATEGORY_AGENT_MAP` (lines 33–62). -/
def CATEGORY_AGENT_MAP : String → Option String
  | "task" => some "task_agent"
  | "calendar" => some "calendar_agent"
  | "email" => some "email_agent"
  | "focus" => some "focus_agent"
  | "quest" => some "quest_agent"
  | "map" => some "map_agent"
  | "contact" => some "contact_agent"
  | "meeting" => some "fireflies_agent"
  | "fireflies" => some "fireflies_agent"
  | "xp" => some "xp_agent"
  | "weather" => some "weather_agent"
  | "finance" => some "finance_agent"
  | _ => Option.none

/-- `READ_DOMAIN_AGENT_MAP` (lines 64–76). -/
def READ_DOMAIN_AGENT_MAP : String → Option String
  | "plan_report" => some "plan_report_agent"
  | "weather" => some "weather_agent"
  | "research" => some "browser_agent"
  | "report" => some "report_agent"
  | "xp_status" => some "xp_agent"
  | "finance_status" => some "finance_agent"
  | "quest_status" => some "quest_agent"
  | "meeting_summary" => some "fireflies_agent"
  | _ => Option.none

/-- One classified sub-intent. -/
structure PIntent where
  category : String
  intentName : String
  payload : Payload

/-- The `paei_context` attached to loop-built instructions (line 227–233;
`execution_notes` is presentation-only and not modelled). -/
structure PaeiInstrCtx where
  role : String
  emailStyle : String
  taskApproach : String

/-- One compiled instruction. -/
structure Instruction where
  agent : String
  intentName : String
  payload : Payload
  paeiCtx : Option PaeiInstrCtx

/-- The result of `parse_time` when it parses (an external collaborator:
modelled as an input). -/
structure TimeData where
  cleaned_text : Option String
  deadline : Option String
  duration : Option String

/-- The fields of `state.weather_snapshot` that the compiler reads, after
their `.get` defaults. -/
structure WeatherSnap where
  conditionType : String
  surfScore : ℚ
  rainRisk : String
  windKnots : Option ℚ
  temperatureC : Option ℚ

/-- An optional number as a payload value. -/
def optQ : Option ℚ → PVal
  | some v => PVal.n v
  | Option.none => PVal.none

/-- The `intent_to_xp_action` table of `_build_agent_payload` (lines 477–489). -/
def intentToXpAction : String → Option String
  | "create_task" => some "task_complete"
  | "schedule_meeting" => some "meeting_complete"
  | "draft_email" => some "task_complete"
  | "set_focus" => some "deep_work_block"
  | "create_quest" => some "task_complete"
  | "create_map" => some "task_complete"
  | "create_contact" => some "task_complete"
  | "check_weather" => some "task_complete"
  | "process_finance" => some "task_complete"
  | "report_viewed" => some "reflection"
  | "award_xp" => some "task_complete"
  | _ => Option.none

/-- `_build_agent_payload` (lines 460–561). -/
def buildAgentPayload (agent intentName : String) (payload₀ : Payload)
    (rawText : String) (paei : PAEIDecision) (energy : EnergyResult)
    (timeData : Option TimeData) : Payload :=
  if agent = "xp_agent" then
    let actionType := (intentToXpAction intentName).getD "task_complete"
    let actionType :=
      if actionType ∈ ["task_complete", "meeting_complete", "deep_work_block",
          "habit_streak", "reflection"]
      then actionType else "task_complete"
    let p := pset payload₀ "action_type" (PVal.s actionType)
    let p := pset p "paei" (PVal.s paei.role.str)
    let p := pset p "difficulty" (pgetD payload₀ "difficulty" (PVal.s "medium"))
    let p := pset p "duration_minutes" (pgetD payload₀ "duration_minutes" (PVal.n 60))
    let p := pset p "priority" (pgetD payload₀ "priority" (PVal.s "medium"))
    pset p "task_id" (pgetD payload₀ "task_id" PVal.none)
  else
    let payload :=
      if agent = "task_agent" ∨ agent = "calendar_agent" then
        match timeData with
        | some td =>
          let p := pset payload₀ "title" (PVal.s (td.cleaned_text.getD rawText))
          let p := pset p "deadline"
            (match td.deadline with | some d => PVal.s d | Option.none => PVal.none)
          pset p "duration" (PVal.s (td.duration.getD "30min"))
        | Option.none => payload₀
      else payload₀
    let payload :=
      if agent = "email_agent" then
        let p := pset payload "tone" (PVal.s paei.email_style)
        let p := pset p "include_acknowledgement" (PVal.b (paei.role.str == "I"))
        let p := pset p "use_bullet_points" (PVal.b (paei.role.str == "P"))
        let p := pset p "vision_context" (PVal.b (paei.role.str == "E"))
        pset p "structured_format" (PVal.b (paei.role.str == "A"))
      else if agent = "task_agent" then
        let p := pset payload "approach" (PVal.s paei.task_approach)
        let p := pset p "time_allocation" (PVal.s paei.calendar_buffer)
        let p := pset p "priority" (PVal.s paei.priority_level)
        let p := pset p "include_team_context" (PVal.b (paei.role.str == "I"))
        pset p "timebox_minutes" (PVal.n (if paei.role.str = "P" then 15 else 30))
      else if agent = "calendar_agent" then
        let p := pset payload "buffer_minutes" (PVal.n (if paei.role.str = "I" then 15 else 5))
        let p := pset p "allow_back_to_back" (PVal.b (paei.role.str != "I"))
        pset p "include_focus_blocks"
          (PVal.b (paei.role.str == "P" || paei.role.str == "E"))
      else payload
    if energy.capacity = "low" then
      pset (pset payload "estimated_duration_multiplier" (PVal.n 1.5))
        "allow_extra_breaks" (PVal.b true)
    else payload

/-- The `weather_context` dict attached to calendar instructions
(`_apply_weather_decisions`, lines 414–424). -/
def weatherCtxVal (w : WeatherSnap) : PVal :=
  PVal.dict [("condition_type", PVal.s w.conditionType),
    ("rain_risk", PVal.s w.rainRisk), ("surf_score", PVal.n w.surfScore),
    ("wind_knots", optQ w.windKnots), ("temperature_c", optQ w.temperatureC),
    ("source", PVal.s "weather_agent_decision")]

/-- The calendar instruction appended on perfect kite conditions
(lines 427–445). -/
def kiteInstr (w : WeatherSnap) : Instruction :=
  ⟨"calendar_agent", "block_time_for_activity",
    [("title", PVal.s "Kitesurf Session (Perfect Conditions)"),
     ("duration_minutes", PVal.n 180), ("priority", PVal.s "high"),
     ("reason", PVal.s "perfect_kite_conditions"),
     ("weather_context", PVal.dict [("condition_type", PVal.s w.conditionType),
       ("surf_score", PVal.n w.surfScore), ("wind_knots", optQ w.windKnots),
       ("action", PVal.s "block_time_due_to_perfect_conditions")]),
     ("auto_reschedule_conflicts", PVal.b true), ("notify_user", PVal.b true)],
    Option.none⟩

/-- The `weather_advisory` dict (lines 448–456). -/
def advisoryVal (w : WeatherSnap) : PVal :=
  PVal.dict [("suggestion", PVal.s "consider_virtual_meeting"),
    ("reason", PVal.s "high_rain_risk"),
    ("condition_type", PVal.s w.conditionType),
    ("rain_risk", PVal.s w.rainRisk)]

/-- `_apply_weather_decisions` (lines 401–458). -/
def applyWeatherDecisions (insts : List Instruction)
    (weather : Option WeatherSnap) : List Instruction :=
  match weather with
  | Option.none => insts
  | some w =>
    let insts₁ := insts.map fun i =>
      if i.agent = "calendar_agent"
      then { i with payload := pset i.payload "weather_context" (weatherCtxVal w) }
      else i
    if w.conditionType = "perfect_kite" then insts₁ ++ [kiteInstr w]
    else if w.rainRisk = "high" ∨ w.rainRisk = "very_high" then
      insts₁.map fun i =>
        if i.agent = "calendar_agent"
        then { i with payload := pset i.payload "weather_advisory" (advisoryVal w) }
        else i
    else insts₁

/-- The daily morning check instruction (lines 241–250). -/
def morningCheckInstr : Instruction :=
  ⟨"weather_agent", "morning_daily_check",
    [("check_surf_conditions", PVal.b true), ("time_of_day", PVal.s "morning"),
     ("priority", PVal.s "high")], Option.none⟩

/-- `_add_proactive_agents` (lines 598–632): a proactive weather check for
P/E roles with recovery above 60, and a fireflies auto-join whenever a
calendar instruction is present. -/
def addProactiveAgents (insts : List Instruction) (paei : PAEIDecision)
    (ctxRecovery : ℚ) (todayEvents outdoorPrefs : PVal) : List Instruction :=
  let insts :=
    if (paei.role = .P ∨ paei.role = .E) ∧ ctxRecovery > 60 then
      insts ++ [⟨"weather_agent", "proactive_schedule_check",
        [("current_schedule", todayEvents), ("user_preferences", outdoorPrefs),
         ("paei_context", PVal.s paei.role.str)], Option.none⟩]
    else insts
  if insts.any (fun i => i.agent == "calendar_agent") then
    let calPayload := match insts.find? (fun i => i.agent == "calendar_agent") with
      | some i => PVal.dict i.payload
      | Option.none => PVal.dict []
    insts ++ [⟨"fireflies_agent", "auto_join_meeting",
      [("calendar_event", calPayload)], Option.none⟩]
  else insts

/-- `_add_xp_agent_if_needed` (lines 363–399): append an XP instruction when
an action agent is activated and no XP agent is present yet; the XP action
type follows the priority table calendar > focus > email > quest > default. -/
def addXpAgentIfNeeded (insts : List Instruction) (paei : PAEIDecision)
    (activated : List String) : List Instruction :=
  let actionAgents := activated.filter (fun a => a ∉ ["xp_agent", "weather_agent"])
  if actionAgents ≠ [] ∧ "xp_agent" ∉ activated then
    let actionType :=
      if "calendar_agent" ∈ activated then "meeting_complete"
      else if "focus_agent" ∈ activated then "deep_work_block"
      else if "email_agent" ∈ activated then "task_complete"
      else if "quest_agent" ∈ activated then "task_complete"
      else "task_complete"
    insts ++ [⟨"xp_agent", "award_xp",
      [("action_type", PVal.s actionType), ("paei", PVal.s paei.role.str),
       ("difficulty", PVal.s "medium"), ("duration_minutes", PVal.n 60),
       ("priority", PVal.s "medium"), ("xp_amount", PVal.n (paei.xp_amount : ℚ))],
      Option.none⟩]
  else insts

/-- The per-intent step of the compiler's instruction loop (lines 208–234):
an unmapped category is skipped, a mapped one appends an instruction and
registers its agent as activated. -/
def intentLoopStep (rawText : String) (paei : PAEIDecision)
    (energy : EnergyResult) (timeData : Option TimeData)
    (acc : List Instruction × List String) (it : PIntent) :
    List Instruction × List String :=
  match CATEGORY_AGENT_MAP it.category with
  | Option.none => acc
  | some agent =>
    (acc.1 ++ [⟨agent, it.intentName,
       buildAgentPayload agent it.intentName it.payload rawText paei energy timeData,
       some ⟨paei.role.str, paei.email_style, paei.task_approach⟩⟩],
     if agent ∈ acc.2 then acc.2 else acc.2 ++ [agent])

/-- Steps 7–9 of `ParentNode.__call__` (lines 205–260): the action-path
instruction batch.  `ctxRecovery` is the decision context's
`whoop_recovery` value (line 589). -/
def compileActionBatch (intents : List PIntent) (rawText : String)
    (paei : PAEIDecision) (energy : EnergyResult) (timeData : Option TimeData)
    (weather : Option WeatherSnap) (forceMorning : Bool) (ctxRecovery : ℚ)
    (todayEvents outdoorPrefs : PVal) : List Instruction :=
  let step7 := intents.foldl (intentLoopStep rawText paei energy timeData) ([], [])
  let insts := applyWeatherDecisions step7.1 weather
  let insts := if forceMorning then morningCheckInstr :: insts else insts
  let insts := addProactiveAgents insts paei ctxRecovery todayEvents outdoorPrefs
  addXpAgentIfNeeded insts paei step7.2

/-- Boolean substring test (Python `needle in haystack`). -/
def listContainsSub (n : List Char) : List Char → Bool
  | [] => n.isEmpty
  | c :: rest => n.isPrefixOf (c :: rest) || listContainsSub n rest

/-- Python `needle in haystack` on strings. -/
def containsSub (haystack needle : String) : Bool :=
  listContainsSub needle.data haystack.data

/-- `_determine_research_type` (lines 339–352). -/
def determineResearchType (text : String) : String :=
  let tl := pyLower text
  if ["competitor", "competitive", "vs ", "compare", "alternative"].any
      (fun w => containsSub tl w) then "competitive_analysis"
  else if ["article", "blog", "news", "recent", "trend"].any
      (fun w => containsSub tl w) then "content_curation"
  else if ["price", "cost", "$", "deal", "sale", "discount"].any
      (fun w => containsSub tl w) then "price_monitoring"
  else if ["reddit", "twitter", "forum", "people saying", "sentiment"].any
      (fun w => containsSub tl w) then "market_research"
  else "general_research"

/-- The per-domain step of `_handle_read_only` (lines 298–329). -/
def readOnlyStep (rawText : String) (acc : List Instruction) (domain : String) :
    List Instruction :=
  match READ_DOMAIN_AGENT_MAP domain with
  | Option.none => acc
  | some agent =>
    let payload : Payload :=
      if agent = "browser_agent" then
        [("query", PVal.s rawText),
         ("research_type", PVal.s (determineResearchType rawText)),
         ("detailed", PVal.b true)]
      else if agent = "xp_agent" then
        [("action_type", PVal.s "report_viewed"),
         ("report_type", PVal.s "weekly_xp_report"),
         ("difficulty", PVal.s "easy"), ("duration_minutes", PVal.n 5),
         ("priority", PVal.s "low")]
      else if agent = "weather_agent" then
        [("query", PVal.s rawText), ("detailed", PVal.b false)]
      else []
    acc ++ [⟨agent, "read_" ++ domain, payload, Option.none⟩]

/-- `_handle_read_only` (lines 289–338): the read-only instruction batch. -/
def handleReadOnly (readDomains : List String) (rawText : String) :
    List Instruction :=
  readDomains.foldl (readOnlyStep rawText) []

/-! ## Theorems -/

theorem rpmRecommend_proceed_aligned (s : ℚ)
    (h : (rpmRecommend s).recommendation = "proceed") :
    (rpmRecommend s).aligned = true := by
  unfold rpmRecommend at h ⊢
  split_ifs at h ⊢ <;> simp_all

theorem compute_rpm_proceed_aligned (quest : Option QuestD) (map_ : Option MapD)
    (task : Option TaskD) (today : ℤ)
    (h : (compute_rpm quest map_ task today).recommendation = "proceed") :
    (compute_rpm quest map_ task today).aligned = true :=
  rpmRecommend_proceed_aligned _ h

/-- C9: the alignment entry point the instruction compiler actually uses,
`compute_rpm_from_context`, returns recommendation "proceed" with
`aligned = True` for every possible input context (a non-proceed
`compute_rpm` result is overwritten with the fixed proceed result of score
0.7), so the compiler's gate-block branch
(`recommendation == "block" and not aligned`) is unreachable. -/
theorem C9_rpm_from_context_always_proceeds :
    ∀ (quest : Option QuestD) (map_ : Option MapD) (today : ℤ),
      (compute_rpm_from_context quest map_ today).recommendation = "proceed" ∧
      (compute_rpm_from_context quest map_ today).aligned = true ∧
      wasBlockedByRpm (compute_rpm_from_context quest map_ today) = false ∧
      ((compute_rpm quest map_ Option.none today).recommendation ≠ "proceed" →
        compute_rpm_from_context quest map_ today = ⟨true, 0.7, "proceed"⟩) := by
  intro quest map_ today
  unfold compute_rpm_from_context
  by_cases h : (compute_rpm quest map_ Option.none today).recommendation = "proceed"
  · have ha := compute_rpm_proceed_aligned quest map_ Option.none today h
    simp [h, ha, wasBlockedByRpm]
  · simp [h, wasBlockedByRpm]

theorem C9_witness :
    (compute_rpm (some ⟨some "Done", some (some 0), Option.none⟩)
        Option.none Option.none 10).recommendation ≠ "proceed" ∧
    compute_rpm_from_context (some ⟨some "Done", some (some 0), Option.none⟩)
        Option.none 10 = ⟨true, 0.7, "proceed"⟩ := by
  have hraw : rpmRawScore (some ⟨some "Done", some (some 0), Option.none⟩)
      Option.none Option.none 10 = 0.17 := by
    norm_num [rpmRawScore, questScore, mapScore, taskScore,
      show ("Done" : String) ≠ "In Progress" from by decide]
  have hne : (compute_rpm (some ⟨some "Done", some (some 0), Option.none⟩)
      Option.none Option.none 10).recommendation ≠ "proceed" := by
    unfold compute_rpm
    rw [hraw]
    rw [show max (0.1 : ℚ) (min (0.17 : ℚ) 1.0) = ((17 : ℤ) : ℚ) / 100 by norm_num]
    rw [round2_hundredths]
    unfold rpmRecommend
    norm_num
    decide
  exact ⟨hne, (C9_rpm_from_context_always_proceeds _ _ _).2.2.2 hne⟩

/-- C2 counterexample: with an urgency-only signal map (base role Producer),
recovery 30 and **critical** deadline pressure, the final role is Integrator,
not Producer — the low-recovery early return at paei_engine.py line 127 fires
before the critical-deadline check at line 132, so a critical deadline does
not override everything. -/
theorem C2_counterexample :
    (paeiDecide { urgency := true } ⟨30, "stable", "critical"⟩ []).1.role = Role.I ∧
    Role.I ≠ Role.P := by
  have hbase : analyzeIntent { urgency := true } = Role.P := by
    norm_num [analyzeIntent, argmaxFirst, List.foldl]
  constructor
  · have hr : (paeiDecide { urgency := true } ⟨30, "stable", "critical"⟩ []).1.role =
        applyContextAdjustments (analyzeIntent { urgency := true })
          ⟨30, "stable", "critical"⟩ [] := rfl
    rw [hr, hbase]
    norm_num [applyContextAdjustments]
  · decide

/-- C2 (amended): with deadline pressure "critical" the final role is
Producer **except** when the recovery score is below 40 and the base role is
Producer, in which case the low-recovery override wins and the final role is
Integrator. -/
theorem C2_critical_deadline (s : SignalMap) (ctx : PaeiContext)
    (history : List Role) (h : ctx.deadline_pressure = "critical") :
    (paeiDecide s ctx history).1.role =
      (if ctx.whoop_recovery < 40 ∧ analyzeIntent s = Role.P
       then Role.I else Role.P) := by
  by_cases h1 : ctx.whoop_recovery < 40 ∧ analyzeIntent s = Role.P
  · simp [paeiDecide, applyContextAdjustments, h1]
  · simp [paeiDecide, applyContextAdjustments, h1, h]

theorem C2_witness :
    (({ whoop_recovery := 70, team_morale := "stable",
        deadline_pressure := "critical" } : PaeiContext).deadline_pressure
      = "critical") ∧
    (paeiDecide {} ⟨70, "stable", "critical"⟩ []).1.role =
      (if (70 : ℚ) < 40 ∧ analyzeIntent {} = Role.P then Role.I else Role.P) :=
  ⟨rfl, C2_critical_deadline {} ⟨70, "stable", "critical"⟩ [] rfl⟩

/-- C10 counterexample: with a WHOOP recovery score of exactly 1 (on the
documented 0–100 scale) and an urgency signal, the energy level is 0.9, not
1.0 — the engine subtracts 0.1 before clamping, so the level is not always
clamped **to** 1.0 (capacity is still "high"). -/
theorem C10_counterexample :
    (compute_energy_from_state Option.none (some 1) true).energy_level = 0.9 ∧
    (0.9 : ℚ) ≠ 1 ∧
    (compute_energy_from_state Option.none (some 1) true).capacity = "high" := by
  refine ⟨?_, ?_, ?_⟩
  · norm_num [compute_energy_from_state]
  · norm_num
  · norm_num [compute_energy_from_state]

/-- C10 (amended): whenever a recovery score of at least 1 is present (the
external recovery source is documented as a float on a 0–100 scale), the
energy engine clamps the level to **at most** 1.0 (it stays ≥ 0.9) and
returns capacity "high", never "low"; consequently the compiler's
low-capacity payload adjustments — `estimated_duration_multiplier = 1.5` and
`allow_extra_breaks = True` — are never applied: those payload keys are left
exactly as the incoming intent payload had them. -/
theorem C10_recovery_forces_high_capacity (el : Option ℚ) (urg : Bool) (r : ℚ)
    (h : 1 ≤ r) (agent intentName : String) (p₀ : Payload) (rawText : String)
    (paei : PAEIDecision) (timeData : Option TimeData) :
    (compute_energy_from_state el (some r) urg).capacity = "high" ∧
    (compute_energy_from_state el (some r) urg).energy_level ≤ 1 ∧
    (0.9 : ℚ) ≤ (compute_energy_from_state el (some r) urg).energy_level ∧
    pget (buildAgentPayload agent intentName p₀ rawText paei
        (compute_energy_from_state el (some r) urg) timeData)
      "estimated_duration_multiplier" = pget p₀ "estimated_duration_multiplier" ∧
    pget (buildAgentPayload agent intentName p₀ rawText paei
        (compute_energy_from_state el (some r) urg) timeData)
      "allow_extra_breaks" = pget p₀ "allow_extra_breaks" := by
  have hcap : (compute_energy_from_state el (some r) urg).capacity = "high" ∧
      (compute_energy_from_state el (some r) urg).energy_level ≤ 1 ∧
      (0.9 : ℚ) ≤ (compute_energy_from_state el (some r) urg).energy_level := by
    have hr9 : (0.9 : ℚ) ≤ (if urg then r - 0.1 else r) := by
      split_ifs <;> linarith
    have h9 : (0.9 : ℚ) ≤ max 0 (min (if urg then r - 0.1 else r) 1) :=
      le_trans (le_min hr9 (by norm_num)) (le_max_right 0 _)
    have h1 : max 0 (min (if urg then r - 0.1 else r) 1) ≤ 1 := by
      rw [max_le_iff]
      exact ⟨by norm_num, min_le_right _ _⟩
    have hn3 : ¬(max 0 (min (if urg then r - 0.1 else r) 1) < 0.3) := by
      intro hc; linarith
    have hn6 : ¬(max 0 (min (if urg then r - 0.1 else r) 1) < 0.6) := by
      intro hc; linarith
    have hred : compute_energy_from_state el (some r) urg =
        ⟨max 0 (min (if urg then r - 0.1 else r) 1), "high", true, "normal", "push"⟩ := by
      unfold compute_energy_from_state
      simp only [hn3, hn6, if_false, ite_false]
    refine ⟨?_, ?_, ?_⟩
    · rw [hred]
    · rw [hred]; exact h1
    · rw [hred]; exact h9
  refine ⟨hcap.1, hcap.2.1, hcap.2.2, ?_, ?_⟩ <;>
  · have hlow : (compute_energy_from_state el (some r) urg).capacity ≠ "low" := by
      rw [hcap.1]; decide
    unfold buildAgentPayload
    rcases timeData with _ | td <;>
      split_ifs <;>
        simp_all [pget_pset_ne, pgetD]

theorem C10_witness :
    (1 : ℚ) ≤ 55 ∧
    ((compute_energy_from_state Option.none (some 55) false).capacity = "high" ∧
     (compute_energy_from_state Option.none (some 55) false).energy_level ≤ 1 ∧
     (0.9 : ℚ) ≤ (compute_energy_from_state Option.none (some 55) false).energy_level ∧
     pget (buildAgentPayload "task_agent" "create_task" [] "do it"
         ⟨Role.P, 5, "bullet_points", "time-boxed execution", "5min", "high"⟩
         (compute_energy_from_state Option.none (some 55) false) Option.none)
       "estimated_duration_multiplier" = pget [] "estimated_duration_multiplier" ∧
     pget (buildAgentPayload "task_agent" "create_task" [] "do it"
         ⟨Role.P, 5, "bullet_points", "time-boxed execution", "5min", "high"⟩
         (compute_energy_from_state Option.none (some 55) false) Option.none)
       "allow_extra_breaks" = pget [] "allow_extra_breaks") :=
  ⟨by norm_num,
   C10_recovery_forces_high_capacity Option.none false 55 (by norm_num)
     "task_agent" "create_task" [] "do it"
     ⟨Role.P, 5, "bullet_points", "time-boxed execution", "5min", "high"⟩
     Option.none⟩

/-- C3 counterexample: the claim's own scenario refutes it.  For
`action_type="task_complete"`, role E, no bonuses and distribution
`{E: 0.5}`, the code first rounds the base product
(`int(round(5 × 1.3)) = round(6.5) = 6`, ties-to-even) and returns
`max(1, round((6 + 0) × 0.7)) = round(4.2) = 4`, while the claim's formula
with the unrounded base gives `round(5 × 1.3 × 0.7) = round(4.55) = 5`. -/
theorem calculate_xp_eq (action paei₀ : String) (difficulty : Option String)
    (dm : Option ℤ) (prio : Option String)
    (dist : Option (List (String × ℚ))) (rs : Option ℤ)
    (b : ℤ) (hb : BASE_XP_BY_ACTION action = some b)
    (m : ℚ) (hm : PAEI_MULTIPLIER (pyUpper paei₀) = some m) :
    calculate_xp action paei₀ difficulty dm prio dist rs =
      some ⟨max (pyRound (((pyRound ((b : ℚ) * m) +
          claimBonus difficulty dm prio : ℤ) : ℚ) *
          claimBalanceMultiplier (pyUpper paei₀) dist *
          claimRecoveryMultiplier (pyUpper paei₀) rs)) 1,
        inferCategory action (pyUpper paei₀),
        claimBonus difficulty dm prio⟩ := by
  unfold calculate_xp claimBonus claimBalanceMultiplier claimRecoveryMultiplier
  rw [hb]
  dsimp only
  rw [hm]

theorem C3_counterexample :
    calculate_xp "task_complete" "E" Option.none Option.none Option.none
      (some [("E", 0.5)]) Option.none = some ⟨4, "e_execution", 0⟩ ∧
    claimXpPoints "task_complete" "E" Option.none Option.none Option.none
      (some [("E", 0.5)]) Option.none = some 5 ∧
    (4 : ℤ) ≠ 5 := by
  have hbal : claimBalanceMultiplier "E" (some [("E", 0.5)]) = 0.7 := by
    norm_num [claimBalanceMultiplier, List.lookup]
  refine ⟨?_, ?_, by norm_num⟩
  · rw [calculate_xp_eq "task_complete" "E" Option.none Option.none Option.none
      (some [("E", 0.5)]) Option.none 5 rfl 1.3 rfl]
    rw [show pyUpper "E" = "E" from rfl, hbal]
    rw [show claimBonus Option.none Option.none Option.none = 0 from rfl,
      show claimRecoveryMultiplier "E" Option.none = 1.0 from rfl,
      show inferCategory "task_complete" "E" = "e_execution" from rfl]
    norm_num [pyRound]
  · unfold claimXpPoints
    rw [show BASE_XP_BY_ACTION "task_complete" = some 5 from rfl,
      show pyUpper "E" = "E" from rfl]
    dsimp only
    rw [show PAEI_MULTIPLIER "E" = some 1.3 from rfl]
    dsimp only
    rw [hbal]
    rw [show claimBonus Option.none Option.none Option.none = 0 from rfl,
      show claimRecoveryMultiplier "E" Option.none = 1.0 from rfl]
    norm_num [pyRound]

/-- C3 (amended): for every valid input (known action type and role), the
returned points equal
`round((round(lookup(action_type) × role_multiplier(role)) + bonus) ×
balance_multiplier × recovery_multiplier)` floored at 1 — i.e. the claim's
formula with the base product **rounded to the nearest integer first** —
and the result is always at least 1.  In the claim's scenario the result is
4. -/
theorem C3_points_formula (action paei₀ : String) (difficulty : Option String)
    (dm : Option ℤ) (prio : Option String)
    (dist : Option (List (String × ℚ))) (rs : Option ℤ)
    (b : ℤ) (hb : BASE_XP_BY_ACTION action = some b)
    (m : ℚ) (hm : PAEI_MULTIPLIER (pyUpper paei₀) = some m) :
    ∃ res : XpResult,
      calculate_xp action paei₀ difficulty dm prio dist rs = some res ∧
      some res.xp = amendedXpPoints action paei₀ difficulty dm prio dist rs ∧
      1 ≤ res.xp := by
  have he := calculate_xp_eq action paei₀ difficulty dm prio dist rs b hb m hm
  refine ⟨_, he, ?_, ?_⟩
  · show some (max (pyRound (((pyRound ((b : ℚ) * m) +
        claimBonus difficulty dm prio : ℤ) : ℚ) *
        claimBalanceMultiplier (pyUpper paei₀) dist *
        claimRecoveryMultiplier (pyUpper paei₀) rs)) 1) =
      amendedXpPoints action paei₀ difficulty dm prio dist rs
    unfold amendedXpPoints
    rw [hb]
    dsimp only
    rw [hm]
    push_cast
    rfl
  · exact le_max_right _ _

theorem C3_witness :
    BASE_XP_BY_ACTION "habit_streak" = some 10 ∧
    PAEI_MULTIPLIER (pyUpper "e") = some 1.3 ∧
    (∃ res : XpResult,
      calculate_xp "habit_streak" "e" (some "hard") (some 95) (some "high")
        (some [("E", 0.1)]) (some 30) = some res ∧
      some res.xp = amendedXpPoints "habit_streak" "e" (some "hard") (some 95)
        (some "high") (some [("E", 0.1)]) (some 30) ∧
      1 ≤ res.xp) :=
  ⟨rfl, rfl,
   C3_points_formula "habit_streak" "e" (some "hard") (some 95) (some "high")
     (some [("E", 0.1)]) (some 30) 10 rfl 1.3 rfl⟩

theorem rpm_score_eq (quest : Option QuestD) (map_ : Option MapD)
    (task : Option TaskD) (today : ℤ) :
    (compute_rpm quest map_ task today).alignment_score =
      round2 (max 0.1 (min (rpmRawScore quest map_ task today) 1.0)) := by
  unfold compute_rpm rpmRecommend
  split_ifs <;> rfl

theorem rpm_score_mono {q1 q2 : Option QuestD} {m1 m2 : Option MapD}
    {t1 t2 : Option TaskD} {d1 d2 : ℤ}
    (h : rpmRawScore q1 m1 t1 d1 ≤ rpmRawScore q2 m2 t2 d2) :
    (compute_rpm q1 m1 t1 d1).alignment_score ≤
      (compute_rpm q2 m2 t2 d2).alignment_score := by
  rw [rpm_score_eq, rpm_score_eq]
  exact round2_mono (max_le_max (le_refl _) (min_le_min h (le_refl _)))

/-- C5: for every combination of optional quest (goal), map (plan) and task
inputs, the gate's score lies in [0.1, 1.0], and the recommendation is
"proceed" exactly when score ≥ 0.40, "defer" exactly when
0.20 ≤ score < 0.40, and "ask_clarify" otherwise (score < 0.20). -/
theorem C5_alignment_gate :
    ∀ (quest : Option QuestD) (map_ : Option MapD) (task : Option TaskD)
      (today : ℤ),
      0.1 ≤ (compute_rpm quest map_ task today).alignment_score ∧
      (compute_rpm quest map_ task today).alignment_score ≤ 1.0 ∧
      ((compute_rpm quest map_ task today).recommendation = "proceed" ↔
        0.40 ≤ (compute_rpm quest map_ task today).alignment_score) ∧
      ((compute_rpm quest map_ task today).recommendation = "defer" ↔
        (0.20 ≤ (compute_rpm quest map_ task today).alignment_score ∧
         (compute_rpm quest map_ task today).alignment_score < 0.40)) ∧
      ((compute_rpm quest map_ task today).recommendation = "ask_clarify" ↔
        (compute_rpm quest map_ task today).alignment_score < 0.20) := by
  intro quest map_ task today
  have h10 : ((10 : ℤ) : ℚ) / 100 = 0.1 := by norm_num
  have h100 : ((100 : ℤ) : ℚ) / 100 = 1 := by norm_num
  have hx1 : (0.1 : ℚ) ≤ max 0.1 (min (rpmRawScore quest map_ task today) 1.0) :=
    le_max_left _ _
  have hx2 : max 0.1 (min (rpmRawScore quest map_ task today) 1.0) ≤ 1 :=
    max_le (by norm_num) (le_trans (min_le_right _ _) (by norm_num))
  have hs1 : (0.1 : ℚ) ≤ round2 (max 0.1 (min (rpmRawScore quest map_ task today) 1.0)) := by
    have := le_round2_of_le (a := 10)
      (x := max 0.1 (min (rpmRawScore quest map_ task today) 1.0))
      (by rw [h10]; exact hx1)
    rwa [h10] at this
  have hs2 : round2 (max 0.1 (min (rpmRawScore quest map_ task today) 1.0)) ≤ 1 := by
    have := round2_le_of_le (b := 100)
      (x := max 0.1 (min (rpmRawScore quest map_ task today) 1.0))
      (by rw [h100]; exact hx2)
    rwa [h100] at this
  have hr : compute_rpm quest map_ task today =
      rpmRecommend (round2 (max 0.1 (min (rpmRawScore quest map_ task today) 1.0))) := rfl
  rw [hr]
  set s := round2 (max 0.1 (min (rpmRawScore quest map_ task today) 1.0)) with hsdef
  unfold rpmRecommend
  split_ifs with h1 h2
  · refine ⟨hs1, show s ≤ 1.0 by linarith, ?_, ?_, ?_⟩
    · exact iff_of_true rfl h1
    · refine iff_of_false (show ("proceed" : String) ≠ "defer" by decide) ?_
      rintro ⟨h3, h4⟩
      linarith
    · refine iff_of_false (show ("proceed" : String) ≠ "ask_clarify" by decide) ?_
      intro h3
      linarith
  · refine ⟨hs1, show s ≤ 1.0 by linarith, ?_, ?_, ?_⟩
    · refine iff_of_false (show ("defer" : String) ≠ "proceed" by decide) ?_
      exact h1
    · exact iff_of_true rfl h2
    · refine iff_of_false (show ("defer" : String) ≠ "ask_clarify" by decide) ?_
      intro h3
      linarith [h2.1]
  · have hlt40 : s < 0.40 := not_le.mp h1
    have hlt20 : s < 0.20 := by
      by_contra hc
      exact h2 ⟨not_lt.mp hc, hlt40⟩
    refine ⟨hs1, show s ≤ 1.0 by linarith, ?_, ?_, ?_⟩
    · exact iff_of_false (show ("ask_clarify" : String) ≠ "proceed" by decide) h1
    · exact iff_of_false (show ("ask_clarify" : String) ≠ "defer" by decide) h2
    · exact iff_of_true rfl hlt20

/-- C8: monotonicity of the goal-alignment gate — enabling any single
positive contribution (active goal, future end-date, positive point target,
high plan priority, user-originated task source, high task priority) while
holding everything else fixed never lowers the final score. -/
theorem C8_monotone_contributions :
    (∀ (st' : Option String) (e : Option (Option ℤ)) (x : Option ℚ)
       (m : Option MapD) (t : Option TaskD) (d : ℤ),
      (compute_rpm (some ⟨st', e, x⟩) m t d).alignment_score ≤
      (compute_rpm (some ⟨some "In Progress", e, x⟩) m t d).alignment_score) ∧
    (∀ (st : Option String) (e' : Option (Option ℤ)) (x : Option ℚ)
       (m : Option MapD) (t : Option TaskD) (d dd : ℤ), d ≤ dd →
      (compute_rpm (some ⟨st, e', x⟩) m t d).alignment_score ≤
      (compute_rpm (some ⟨st, some (some dd), x⟩) m t d).alignment_score) ∧
    (∀ (st : Option String) (e : Option (Option ℤ)) (x' : Option ℚ) (v : ℚ)
       (m : Option MapD) (t : Option TaskD) (d : ℤ), 0 < v →
      (compute_rpm (some ⟨st, e, x'⟩) m t d).alignment_score ≤
      (compute_rpm (some ⟨st, e, some v⟩) m t d).alignment_score) ∧
    (∀ (p' mt : Option String) (q : Option QuestD) (t : Option TaskD) (d : ℤ),
      (compute_rpm q (some ⟨p', mt⟩) t d).alignment_score ≤
      (compute_rpm q (some ⟨some "High", mt⟩) t d).alignment_score) ∧
    (∀ (s' tt pp : Option String) (q : Option QuestD) (m : Option MapD) (d : ℤ),
      (compute_rpm q m (some ⟨s', tt, pp⟩) d).alignment_score ≤
      (compute_rpm q m (some ⟨some "Voice", tt, pp⟩) d).alignment_score) ∧
    (∀ (ss tt p' : Option String) (q : Option QuestD) (m : Option MapD) (d : ℤ),
      (compute_rpm q m (some ⟨ss, tt, p'⟩) d).alignment_score ≤
      (compute_rpm q m (some ⟨ss, tt, some "High"⟩) d).alignment_score) := by
  refine ⟨?_, ?_, ?_, ?_, ?_, ?_⟩
  · intro st' e x m t d
    apply rpm_score_mono
    unfold rpmRawScore
    have hc : questScore (some ⟨st', e, x⟩) d ≤
        questScore (some ⟨some "In Progress", e, x⟩) d := by
      simp only [questScore]
      rcases e with _ | e2
      · dsimp only
        split_ifs <;> norm_num
      · rcases e2 with _ | dt
        · dsimp only
          split_ifs <;> norm_num
        · dsimp only
          split_ifs <;> norm_num
    linarith
  · intro st e' x m t d dd h
    apply rpm_score_mono
    unfold rpmRawScore
    have hc : questScore (some ⟨st, e', x⟩) d ≤
        questScore (some ⟨st, some (some dd), x⟩) d := by
      simp only [questScore]
      rcases e' with _ | e2
      · dsimp only
        rw [if_pos h]
        split_ifs <;> norm_num
      · rcases e2 with _ | dt
        · dsimp only
          rw [if_pos h]
          split_ifs <;> norm_num
        · dsimp only
          rw [if_pos h]
          split_ifs <;> norm_num
    linarith
  · intro st e x' v m t d hv
    apply rpm_score_mono
    unfold rpmRawScore
    have hc : questScore (some ⟨st, e, x'⟩) d ≤
        questScore (some ⟨st, e, some v⟩) d := by
      simp only [questScore]
      rcases x' with _ | w
      · dsimp only
        rw [if_pos (show v ≠ 0 ∧ 0 < v from ⟨ne_of_gt hv, hv⟩)]
        split_ifs <;> norm_num
      · dsimp only
        rw [if_pos (show v ≠ 0 ∧ 0 < v from ⟨ne_of_gt hv, hv⟩)]
        split_ifs <;> norm_num
    linarith
  · intro p' mt q t d
    apply rpm_score_mono
    unfold rpmRawScore
    have hc : mapScore (some ⟨p', mt⟩) ≤ mapScore (some ⟨some "High", mt⟩) := by
      simp only [mapScore]
      dsimp only
      split_ifs <;> norm_num
    linarith
  · intro s' tt pp q m d
    apply rpm_score_mono
    unfold rpmRawScore
    have hc : taskScore (some ⟨s', tt, pp⟩) ≤ taskScore (some ⟨some "Voice", tt, pp⟩) := by
      simp only [taskScore]
      dsimp only
      split_ifs <;> (try simp_all) <;> norm_num
    linarith
  · intro ss tt p' q m d
    apply rpm_score_mono
    unfold rpmRawScore
    have hc : taskScore (some ⟨ss, tt, p'⟩) ≤ taskScore (some ⟨ss, tt, some "High"⟩) := by
      simp only [taskScore]
      dsimp only
      split_ifs <;> norm_num
    linarith

theorem C8_witness :
    (0 : ℤ) ≤ 5 ∧ (0 : ℚ) < 10 ∧
    (compute_rpm (some ⟨some "Done", Option.none, Option.none⟩)
        Option.none Option.none 0).alignment_score ≤
      (compute_rpm (some ⟨some "In Progress", Option.none, Option.none⟩)
        Option.none Option.none 0).alignment_score ∧
    (compute_rpm (some ⟨some "In Progress", Option.none, Option.none⟩)
        Option.none Option.none 0).alignment_score ≤
      (compute_rpm (some ⟨some "In Progress", some (some 5), Option.none⟩)
        Option.none Option.none 0).alignment_score ∧
    (compute_rpm (some ⟨some "In Progress", Option.none, Option.none⟩)
        Option.none Option.none 0).alignment_score ≤
      (compute_rpm (some ⟨some "In Progress", Option.none, some 10⟩)
        Option.none Option.none 0).alignment_score ∧
    (compute_rpm Option.none (some ⟨some "Low", Option.none⟩)
        Option.none 0).alignment_score ≤
      (compute_rpm Option.none (some ⟨some "High", Option.none⟩)
        Option.none 0).alignment_score ∧
    (compute_rpm Option.none Option.none
        (some ⟨some "Email", Option.none, Option.none⟩) 0).alignment_score ≤
      (compute_rpm Option.none Option.none
        (some ⟨some "Voice", Option.none, Option.none⟩) 0).alignment_score ∧
    (compute_rpm Option.none Option.none
        (some ⟨Option.none, Option.none, Option.none⟩) 0).alignment_score ≤
      (compute_rpm Option.none Option.none
        (some ⟨Option.none, Option.none, some "High"⟩) 0).alignment_score :=
  ⟨by norm_num, by norm_num,
   C8_monotone_contributions.1 (some "Done") Option.none Option.none
     Option.none Option.none 0,
   C8_monotone_contributions.2.1 (some "In Progress") Option.none Option.none
     Option.none Option.none 0 5 (by norm_num),
   C8_monotone_contributions.2.2.1 (some "In Progress") Option.none
     Option.none 10 Option.none Option.none 0 (by norm_num),
   C8_monotone_contributions.2.2.2.1 (some "Low") Option.none Option.none
     Option.none 0,
   C8_monotone_contributions.2.2.2.2.1 (some "Email") Option.none Option.none
     Option.none Option.none 0,
   C8_monotone_contributions.2.2.2.2.2 Option.none Option.none Option.none
     Option.none Option.none 0⟩

theorem fset_fresh (m : List (String × String)) (k v : String)
    (h : k ∉ m.map Prod.fst) : fset m k v = (k, v) :: m := by
  unfold fset
  congr 1
  induction m with
  | nil => rfl
  | cons hd tl ih =>
    simp only [List.map_cons, List.mem_cons] at h
    push_neg at h
    have h1 : (hd.1 == k) = false := by
      simp only [beq_eq_false_iff_ne, ne_eq]
      exact fun he => h.1 he.symm
    simp [List.eraseP_cons, h1, ih h.2]

theorem mergeStep (ag : Option String) (f : String) (fs' : List String)
    (filled : List (String × String)) (msg : String)
    (hf : f ∉ filled.map Prod.fst) :
    process_user_message (some ⟨"awaiting_user", ag, f :: fs', filled⟩) msg =
      some (if fs' ≠ [] then ⟨"awaiting_user", ag, fs', (f, pyStrip msg) :: filled⟩
        else ⟨"complete", ag, [], (f, pyStrip msg) :: filled⟩) := by
  have hs1 : ¬("awaiting_user" : String) = "complete" := by decide
  unfold process_user_message mergeSlotAnswers
  try dsimp only
  rw [if_neg hs1]
  try dsimp only
  rw [if_pos (show ("awaiting_user" : String) = "awaiting_user" from rfl),
    fset_fresh filled f (pyStrip msg) hf]

theorem runTurns_complete (ag : Option String) :
    ∀ (fs msgs : List String) (filled : List (String × String)),
      fs ≠ [] → fs.length = msgs.length → fs.Nodup →
      (∀ f ∈ fs, f ∉ filled.map Prod.fst) →
      runTurns (some ⟨"awaiting_user", ag, fs, filled⟩) msgs =
        some ⟨"complete", ag, [], (fs.zip (msgs.map pyStrip)).reverse ++ filled⟩ := by
  intro fs
  induction fs with
  | nil => intro msgs filled hne; exact absurd rfl hne
  | cons f fs' ih =>
    intro msgs filled _ hlen hnd hfresh
    cases msgs with
    | nil => simp at hlen
    | cons msg msgs' =>
      have hturn : runTurns (some ⟨"awaiting_user", ag, f :: fs', filled⟩) (msg :: msgs') =
          runTurns (process_user_message (some ⟨"awaiting_user", ag, f :: fs', filled⟩) msg)
            msgs' := rfl
      rw [hturn, mergeStep ag f fs' filled msg (hfresh f (by simp))]
      by_cases hrest : fs' = []
      · subst hrest
        have hm : msgs' = [] := by
          cases msgs' with
          | nil => rfl
          | cons a b => simp at hlen
        subst hm
        simp [runTurns]
      · rw [if_pos hrest]
        have hnd' : fs'.Nodup := (List.nodup_cons.mp hnd).2
        have hfm : f ∉ fs' := (List.nodup_cons.mp hnd).1
        have hfresh' : ∀ g ∈ fs', g ∉ ((f, pyStrip msg) :: filled).map Prod.fst := by
          intro g hg
          simp only [List.map_cons, List.mem_cons]
          push_neg
          constructor
          · exact fun he => hfm (he ▸ hg)
          · exact hfresh g (by simp [hg])
        rw [ih msgs' ((f, pyStrip msg) :: filled) hrest (by simpa using hlen) hnd' hfresh']
        simp [List.zip_cons_cons, List.reverse_cons, List.append_assoc]

theorem runTurns_take (ag : Option String) :
    ∀ (i : ℕ) (fs msgs : List String) (filled : List (String × String)),
      i < fs.length → fs.length = msgs.length → fs.Nodup →
      (∀ f ∈ fs, f ∉ filled.map Prod.fst) →
      runTurns (some ⟨"awaiting_user", ag, fs, filled⟩) (msgs.take i) =
        some ⟨"awaiting_user", ag, fs.drop i,
          ((fs.take i).zip ((msgs.take i).map pyStrip)).reverse ++ filled⟩ := by
  intro i
  induction i with
  | zero => intro fs msgs filled _ _ _ _; simp [runTurns]
  | succ i ih =>
    intro fs msgs filled h1 hlen hnd hfresh
    cases fs with
    | nil => simp at h1
    | cons f fs' =>
      cases msgs with
      | nil => simp at hlen
      | cons msg msgs' =>
        have ht : (msg :: msgs').take (i + 1) = msg :: msgs'.take i := rfl
        rw [ht]
        have hturn : runTurns (some ⟨"awaiting_user", ag, f :: fs', filled⟩)
            (msg :: msgs'.take i) =
            runTurns (process_user_message
              (some ⟨"awaiting_user", ag, f :: fs', filled⟩) msg) (msgs'.take i) := rfl
        rw [hturn, mergeStep ag f fs' filled msg (hfresh f (by simp))]
        have hrest : fs' ≠ [] := by
          intro he
          rw [he] at h1
          simp at h1
        rw [if_pos hrest]
        have hnd' : fs'.Nodup := (List.nodup_cons.mp hnd).2
        have hfm : f ∉ fs' := (List.nodup_cons.mp hnd).1
        have hfresh' : ∀ g ∈ fs', g ∉ ((f, pyStrip msg) :: filled).map Prod.fst := by
          intro g hg
          simp only [List.map_cons, List.mem_cons]
          push_neg
          exact ⟨fun he => hfm (he ▸ hg), hfresh g (by simp [hg])⟩
        rw [ih fs' msgs' ((f, pyStrip msg) :: filled) (by simpa using h1)
          (by simpa using hlen) hnd' hfresh']
        simp [List.zip_cons_cons, List.reverse_cons, List.append_assoc]

theorem lookup_of_nodup_keys :
    ∀ (l : List (String × String)), (l.map Prod.fst).Nodup →
      ∀ k v, (k, v) ∈ l → l.lookup k = some v := by
  intro l
  induction l with
  | nil => intro _ k v hm; simp at hm
  | cons hd tl ih =>
    intro hnd k v hm
    obtain ⟨a, b⟩ := hd
    simp only [List.map_cons, List.nodup_cons] at hnd
    rcases List.mem_cons.mp hm with he | hm2
    · cases he
      simp [List.lookup]
    · have h1 : (k == a) = false := by
        simp only [beq_eq_false_iff_ne, ne_eq]
        intro he
        subst he
        exact hnd.1 (List.mem_map.mpr ⟨(k, v), hm2, rfl⟩)
      simp [List.lookup, h1]
      exact ih hnd.2 k v hm2

theorem mem_zip_get {α β : Type} :
    ∀ (l₁ : List α) (l₂ : List β) (j : ℕ) (h1 : j < l₁.length) (h2 : j < l₂.length),
      (l₁.get ⟨j, h1⟩, l₂.get ⟨j, h2⟩) ∈ l₁.zip l₂ := by
  intro l₁
  induction l₁ with
  | nil => intro l₂ j h1; simp at h1
  | cons a l₁ ih =>
    intro l₂ j h1 h2
    cases l₂ with
    | nil => simp at h2
    | cons b l₂ =>
      cases j with
      | zero => simp [List.zip_cons_cons]
      | succ j =>
        simp only [List.zip_cons_cons, List.get, List.mem_cons]
        right
        exact ih l₂ j (by simpa using h1) (by simpa using h2)

/-- C6 counterexample: the stored slot value is not the raw message verbatim —
`_merge_slot_answers` stores `user_text.strip()` (conversation_manager.py
line 121), so the message `" hello "` is stored as `"hello"`. -/
theorem C6_counterexample :
    runTurns (some ⟨"awaiting_user", some "task_agent", ["title"], []⟩) [" hello "] =
      some ⟨"complete", some "task_agent", [], [("title", "hello")]⟩ ∧
    ("hello" : String) ≠ " hello " := by
  constructor
  · rfl
  · decide

/-- C6 (amended): starting from AwaitingUser with a queue of N ≥ 1 distinct
missing fields, N subsequent turns each supplying one raw user message reach
the Complete state exactly once — after every proper prefix of i < N turns
the state is still AwaitingUser with the first i fields popped in queue
order (so no field is requested twice) — and the filled map holds exactly N
entries, field `fs[j]` holding **the whitespace-stripped form** of turn j's
message. -/
theorem C6_slot_filler (ag : Option String) (fs msgs : List String) (N : ℕ)
    (hN : 0 < N) (hfs : fs.length = N) (hmsgs : msgs.length = N)
    (hnd : fs.Nodup) :
    runTurns (some ⟨"awaiting_user", ag, fs, []⟩) msgs =
      some ⟨"complete", ag, [], (fs.zip (msgs.map pyStrip)).reverse⟩ ∧
    (∀ i, i < N →
      runTurns (some ⟨"awaiting_user", ag, fs, []⟩) (msgs.take i) =
        some ⟨"awaiting_user", ag, fs.drop i,
          ((fs.take i).zip ((msgs.take i).map pyStrip)).reverse⟩) ∧
    ((fs.zip (msgs.map pyStrip)).reverse).length = N ∧
    (∀ j (hj1 : j < fs.length) (hj2 : j < msgs.length),
      ((fs.zip (msgs.map pyStrip)).reverse).lookup (fs.get ⟨j, hj1⟩) =
        some (pyStrip (msgs.get ⟨j, hj2⟩))) := by
  have hne : fs ≠ [] := by
    intro he
    rw [he] at hfs
    simp at hfs
    omega
  have hfresh : ∀ f ∈ fs, f ∉ (([] : List (String × String)).map Prod.fst) := by
    intro f _
    simp
  refine ⟨?_, ?_, ?_, ?_⟩
  · have := runTurns_complete ag fs msgs [] hne (by rw [hfs, hmsgs]) hnd hfresh
    simpa using this
  · intro i hi
    have := runTurns_take ag i fs msgs [] (by omega) (by rw [hfs, hmsgs]) hnd hfresh
    simpa using this
  · simp [List.length_zip, hfs, hmsgs]
  · intro j hj1 hj2
    have hkeys : (((fs.zip (msgs.map pyStrip)).reverse).map Prod.fst).Nodup := by
      rw [List.map_reverse, List.nodup_reverse]
      rw [List.map_fst_zip fs (msgs.map pyStrip) (by simp [hfs, hmsgs])]
      exact hnd
    apply lookup_of_nodup_keys _ hkeys
    rw [List.mem_reverse]
    have hg : ((msgs.map pyStrip).get ⟨j, by simpa using hj2⟩) =
        pyStrip (msgs.get ⟨j, hj2⟩) := by
      simp
    rw [← hg]
    exact mem_zip_get fs (msgs.map pyStrip) j hj1 (by simpa using hj2)

theorem C6_witness :
    (runTurns (some ⟨"awaiting_user", some "task_agent", ["title", "deadline"], []⟩)
        ["a", " b "] =
      some ⟨"complete", some "task_agent", [],
        (["title", "deadline"].zip (["a", " b "].map pyStrip)).reverse⟩) ∧
    (runTurns (some ⟨"awaiting_user", some "task_agent", ["title", "deadline"], []⟩)
        (["a", " b "].take 1) =
      some ⟨"awaiting_user", some "task_agent", ["title", "deadline"].drop 1,
        ((["title", "deadline"].take 1).zip
          ((["a", " b "].take 1).map pyStrip)).reverse⟩) ∧
    ((["title", "deadline"].zip (["a", " b "].map pyStrip)).reverse).length = 2 ∧
    ((["title", "deadline"].zip (["a", " b "].map pyStrip)).reverse).lookup
        (["title", "deadline"].get ⟨0, by norm_num⟩) =
      some (pyStrip (["a", " b "].get ⟨0, by norm_num⟩)) := by
  have h := C6_slot_filler (some "task_agent") ["title", "deadline"] ["a", " b "] 2
    (by norm_num) rfl rfl (by decide)
  exact ⟨h.1, h.2.1 1 (by norm_num), h.2.2.1, h.2.2.2 0 (by norm_num) (by norm_num)⟩

/-- C7 counterexample: an attempted primary-phase instruction whose handler
returns `None` without raising (a real path: `run_email_sender_node` returns
`None` when the contact is not found) leaves no record in
`execution_results`, so it is not represented in the ExecutionSummary
counts — here one instruction is attempted, yet `total_agents` is 0. -/
theorem C7_counterexample :
    ((routerRun (σ := Unit) (fun _ _ => HRes.retNone) [⟨"task_agent", Option.none⟩]
        false ⟨Option.none, ()⟩).2.map (·.total_agents)) = some 0 ∧
    (([(⟨"task_agent", Option.none⟩ : RInstr)].filter
        (fun i => i.agent ∉ ["xp_agent", "weather_agent", "fireflies_agent"])).countP
      (fun i => i.agent ∈ registryNames)) = 1 ∧
    (0 : ℕ) ≠ 1 := by
  refine ⟨rfl, rfl, by norm_num⟩

/-- C7 (amended): the router's primary phase catches a raising handler at the
boundary and converts it into a failed outcome (the router's result type is a
plain state-and-summary pair — nothing propagates), and every attempted
primary-phase instruction whose handler raises **or returns an updated
state** is represented in the ExecutionSummary counts (in `total`, and in
`successful` exactly when it succeeded); an attempted instruction whose
handler returns `None` leaves no outcome and is absent from both counts.
The summary's counts are exactly the length and success count of the
primary-phase outcome list. -/
theorem C7_router_counts {σ : Type} (impl : String → RState σ → HRes (RState σ))
    (st : RState σ) (pre : List RInstr) (i : RInstr)
    (hreg : i.agent ∈ registryNames) :
    (impl i.agent (injectPaeiContext (primaryPhase impl st pre).1 i) = HRes.raise →
      primaryPhase impl st (pre ++ [i]) =
        (injectPaeiContext (primaryPhase impl st pre).1 i,
         (primaryPhase impl st pre).2 ++ [⟨i.agent, false, Option.none⟩])) ∧
    (∀ st₂, impl i.agent (injectPaeiContext (primaryPhase impl st pre).1 i) =
        HRes.retSome st₂ →
      primaryPhase impl st (pre ++ [i]) =
        (st₂, (primaryPhase impl st pre).2 ++ [⟨i.agent, true, some (rinstrRole i)⟩])) ∧
    (impl i.agent (injectPaeiContext (primaryPhase impl st pre).1 i) = HRes.retNone →
      primaryPhase impl st (pre ++ [i]) =
        (injectPaeiContext (primaryPhase impl st pre).1 i,
         (primaryPhase impl st pre).2)) ∧
    (∀ (instrs : List RInstr) (isCoord : Bool), instrs ≠ [] →
      (routerRun impl instrs isCoord st).2 = some
        ⟨(primaryPhase impl st (instrs.filter
            (fun j => j.agent ∉ ["xp_agent", "weather_agent", "fireflies_agent"]))).2.length,
          (primaryPhase impl st (instrs.filter
            (fun j => j.agent ∉ ["xp_agent", "weather_agent", "fireflies_agent"]))).2.countP
            (·.success),
          paeiDistribution (primaryPhase impl st (instrs.filter
            (fun j => j.agent ∉ ["xp_agent", "weather_agent", "fireflies_agent"]))).2,
          isCoord⟩) := by
  have hstep : primaryPhase impl st (pre ++ [i]) =
      (if i.agent ∈ registryNames then
        match impl i.agent (injectPaeiContext (primaryPhase impl st pre).1 i) with
        | HRes.raise => (injectPaeiContext (primaryPhase impl st pre).1 i,
            (primaryPhase impl st pre).2 ++ [⟨i.agent, false, Option.none⟩])
        | HRes.retNone => (injectPaeiContext (primaryPhase impl st pre).1 i,
            (primaryPhase impl st pre).2)
        | HRes.retSome st₂ => (st₂,
            (primaryPhase impl st pre).2 ++ [⟨i.agent, true, some (rinstrRole i)⟩])
       else primaryPhase impl st pre) := by
    unfold primaryPhase
    rw [List.foldl_append]
    rfl
  rw [if_pos hreg] at hstep
  refine ⟨?_, ?_, ?_, ?_⟩
  · intro hr
    rw [hstep, hr]
  · intro st₂ hr
    rw [hstep, hr]
  · intro hr
    rw [hstep, hr]
  · intro instrs isCoord hne
    unfold routerRun
    rw [if_neg hne]

theorem C7_witness :
    (("task_agent" : String) ∈ registryNames) ∧
    ((fun (_ : String) (_ : RState Unit) => (HRes.raise : HRes (RState Unit)))
        "task_agent" (injectPaeiContext
          (primaryPhase (σ := Unit) (fun _ _ => HRes.raise) ⟨Option.none, ()⟩ []).1
          ⟨"task_agent", Option.none⟩) = HRes.raise) ∧
    primaryPhase (σ := Unit) (fun _ _ => HRes.raise) ⟨Option.none, ()⟩
        ([] ++ [⟨"task_agent", Option.none⟩]) =
      (injectPaeiContext
        (primaryPhase (σ := Unit) (fun _ _ => HRes.raise) ⟨Option.none, ()⟩ []).1
        ⟨"task_agent", Option.none⟩,
       (primaryPhase (σ := Unit) (fun _ _ => HRes.raise) ⟨Option.none, ()⟩ []).2 ++
         [⟨"task_agent", false, Option.none⟩]) ∧
    (routerRun (σ := Unit) (fun _ _ => HRes.raise) [⟨"task_agent", Option.none⟩]
        false ⟨Option.none, ()⟩).2 = some
      ⟨(primaryPhase (σ := Unit) (fun _ _ => HRes.raise) ⟨Option.none, ()⟩
          ([(⟨"task_agent", Option.none⟩ : RInstr)].filter
            (fun j => j.agent ∉ ["xp_agent", "weather_agent", "fireflies_agent"]))).2.length,
        (primaryPhase (σ := Unit) (fun _ _ => HRes.raise) ⟨Option.none, ()⟩
          ([(⟨"task_agent", Option.none⟩ : RInstr)].filter
            (fun j => j.agent ∉ ["xp_agent", "weather_agent", "fireflies_agent"]))).2.countP
          (·.success),
        paeiDistribution (primaryPhase (σ := Unit) (fun _ _ => HRes.raise) ⟨Option.none, ()⟩
          ([(⟨"task_agent", Option.none⟩ : RInstr)].filter
            (fun j => j.agent ∉ ["xp_agent", "weather_agent", "fireflies_agent"]))).2,
        false⟩ := by
  have h := C7_router_counts (σ := Unit) (fun _ _ => HRes.raise) ⟨Option.none, ()⟩ []
    ⟨"task_agent", Option.none⟩ (by decide)
  exact ⟨by decide, rfl, h.1 rfl,
    h.2.2.2 [⟨"task_agent", Option.none⟩] false (by simp)⟩

theorem no_xp_append_single {l : List Instruction} {x : Instruction}
    (h : ∀ i ∈ l, i.agent ≠ "xp_agent") (hx : x.agent ≠ "xp_agent") :
    ∀ i ∈ l ++ [x], i.agent ≠ "xp_agent" := by
  intro i hi
  rcases List.mem_append.mp hi with h1 | h1
  · exact h i h1
  · rw [List.mem_singleton.mp h1]
    exact hx

theorem intentLoop_agents (rawText : String) (paei : PAEIDecision)
    (energy : EnergyResult) (timeData : Option TimeData) :
    ∀ (intents : List PIntent) (acc : List Instruction × List String)
      (i : Instruction),
      i ∈ (intents.foldl (intentLoopStep rawText paei energy timeData) acc).1 →
      i ∈ acc.1 ∨ ∃ it ∈ intents, CATEGORY_AGENT_MAP it.category = some i.agent := by
  intro intents
  induction intents with
  | nil => intro acc i h; exact Or.inl h
  | cons it intents ih =>
    intro acc i h
    rw [List.foldl_cons] at h
    rcases ih _ i h with h1 | h2
    · unfold intentLoopStep at h1
      cases hc : CATEGORY_AGENT_MAP it.category with
      | none => rw [hc] at h1; exact Or.inl h1
      | some agent =>
        rw [hc] at h1
        dsimp only at h1
        rcases List.mem_append.mp h1 with h3 | h3
        · exact Or.inl h3
        · right
          refine ⟨it, by simp, ?_⟩
          rw [List.mem_singleton.mp h3]
          exact hc
    · obtain ⟨it2, hit2, hmap⟩ := h2
      exact Or.inr ⟨it2, by simp [hit2], hmap⟩

theorem applyWeather_no_xp {insts : List Instruction} {w : Option WeatherSnap}
    (h : ∀ i ∈ insts, i.agent ≠ "xp_agent") :
    ∀ i ∈ applyWeatherDecisions insts w, i.agent ≠ "xp_agent" := by
  rcases w with _ | w
  · exact h
  · have hmap : ∀ (f : Instruction → Instruction),
        (∀ j, (f j).agent = j.agent) →
        ∀ i ∈ insts.map f, i.agent ≠ "xp_agent" := by
      intro f hf i hi
      obtain ⟨j, hj, rfl⟩ := List.mem_map.mp hi
      rw [hf j]
      exact h j hj
    intro i hi
    unfold applyWeatherDecisions at hi
    dsimp only at hi
    have hf1 : ∀ j : Instruction,
        ((if j.agent = "calendar_agent"
          then { j with payload := pset j.payload "weather_context" (weatherCtxVal w) }
          else j)).agent = j.agent := by
      intro j
      split_ifs <;> rfl
    split_ifs at hi with hk hr
    · rcases List.mem_append.mp hi with h3 | h3
      · exact hmap _ hf1 i h3
      · rw [List.mem_singleton.mp h3]
        exact show ("calendar_agent" : String) ≠ "xp_agent" by decide
    · obtain ⟨j, hj, rfl⟩ := List.mem_map.mp hi
      have hj2 := hmap _ hf1 j hj
      split_ifs <;> exact hj2
    · exact hmap _ hf1 i hi

theorem addProactive_no_xp {insts : List Instruction} {paei : PAEIDecision}
    {cr : ℚ} {te op : PVal} (h : ∀ i ∈ insts, i.agent ≠ "xp_agent") :
    ∀ i ∈ addProactiveAgents insts paei cr te op, i.agent ≠ "xp_agent" := by
  intro i hi
  unfold addProactiveAgents at hi
  by_cases hc1 : (paei.role = Role.P ∨ paei.role = Role.E) ∧ cr > 60
  · rw [if_pos hc1] at hi
    dsimp only at hi
    have h1 : ∀ j ∈ insts ++ [⟨"weather_agent", "proactive_schedule_check",
        [("current_schedule", te), ("user_preferences", op),
         ("paei_context", PVal.s paei.role.str)], Option.none⟩],
        j.agent ≠ "xp_agent" :=
      no_xp_append_single h (show ("weather_agent" : String) ≠ "xp_agent" by decide)
    split_ifs at hi
    · exact no_xp_append_single h1
        (show ("fireflies_agent" : String) ≠ "xp_agent" by decide) i hi
    · exact h1 i hi
  · rw [if_neg hc1] at hi
    dsimp only at hi
    split_ifs at hi
    · exact no_xp_append_single h
        (show ("fireflies_agent" : String) ≠ "xp_agent" by decide) i hi
    · exact h i hi

theorem xp_free_dropLast {l : List Instruction}
    (h : ∀ i ∈ l, i.agent ≠ "xp_agent") :
    "xp_agent" ∉ (l.dropLast.map (·.agent)) := by
  intro hmem
  obtain ⟨i, hi, he⟩ := List.mem_map.mp hmem
  have hsub : i ∈ l := by
    have : l.dropLast.Sublist l := List.dropLast_sublist l
    exact this.subset hi
  exact h i hsub he

theorem addXp_dropLast_no_xp {l : List Instruction} {paei : PAEIDecision}
    {activated : List String} (h : ∀ i ∈ l, i.agent ≠ "xp_agent") :
    "xp_agent" ∉ ((addXpAgentIfNeeded l paei activated).dropLast.map (·.agent)) := by
  unfold addXpAgentIfNeeded
  dsimp only
  split_ifs <;>
    first
    | (rw [List.dropLast_concat]
       intro hmem
       obtain ⟨i, hi, he⟩ := List.mem_map.mp hmem
       exact h i hi he)
    | exact xp_free_dropLast h

theorem readOnly_agents (rawText : String) :
    ∀ (domains : List String) (acc : List Instruction) (i : Instruction),
      i ∈ domains.foldl (readOnlyStep rawText) acc →
      i ∈ acc ∨ ∃ d ∈ domains, READ_DOMAIN_AGENT_MAP d = some i.agent := by
  intro domains
  induction domains with
  | nil => intro acc i h; exact Or.inl h
  | cons d domains ih =>
    intro acc i h
    rw [List.foldl_cons] at h
    rcases ih _ i h with h1 | h2
    · unfold readOnlyStep at h1
      cases hc : READ_DOMAIN_AGENT_MAP d with
      | none => rw [hc] at h1; exact Or.inl h1
      | some agent =>
        rw [hc] at h1
        dsimp only at h1
        rcases List.mem_append.mp h1 with h3 | h3
        · exact Or.inl h3
        · right
          refine ⟨d, by simp, ?_⟩
          rw [List.mem_singleton.mp h3]
          exact hc
    · obtain ⟨d2, hd2, hmap⟩ := h2
      exact Or.inr ⟨d2, by simp [hd2], hmap⟩

/-- C1 counterexample: an explicit "xp"-category sub-intent followed by a
"task" sub-intent compiles to the batch [xp_agent, task_agent]: the batch
contains a point-engine instruction that is **not** the last element
(`_add_xp_agent_if_needed` only appends when no xp_agent is already
activated, and never moves an existing one). -/
theorem C1_counterexample :
    ((compileActionBatch [⟨"xp", "award_xp", []⟩, ⟨"task", "create_task", []⟩] ""
        ⟨Role.A, 8, "structured", "follow process", "10min", "medium"⟩
        ⟨0.5, "medium", false, "limited", "maintenance"⟩ Option.none Option.none
        false 50 PVal.none PVal.none).map (·.agent)) = ["xp_agent", "task_agent"] ∧
    "xp_agent" ∈ ((compileActionBatch [⟨"xp", "award_xp", []⟩, ⟨"task", "create_task", []⟩] ""
        ⟨Role.A, 8, "structured", "follow process", "10min", "medium"⟩
        ⟨0.5, "medium", false, "limited", "maintenance"⟩ Option.none Option.none
        false 50 PVal.none PVal.none).dropLast.map (·.agent)) ∧
    ("task_agent" : String) ≠ "xp_agent" := by
  refine ⟨rfl, ?_, by decide⟩
  rw [show ((compileActionBatch [⟨"xp", "award_xp", []⟩, ⟨"task", "create_task", []⟩] ""
      ⟨Role.A, 8, "structured", "follow process", "10min", "medium"⟩
      ⟨0.5, "medium", false, "limited", "maintenance"⟩ Option.none Option.none
      false 50 PVal.none PVal.none).dropLast.map (·.agent)) = ["xp_agent"] from rfl]
  simp

/-- C1 (amended): whenever no input maps to the point engine itself — no
sub-intent category maps to `xp_agent` on the action path, and no read
domain maps to `xp_agent` on the read-only path — any xp_agent instruction
in the compiled batch is the last element (equivalently, `xp_agent` never
occurs among the agents of `dropLast` of the batch). -/
theorem C1_xp_agent_last (intents : List PIntent) (rawText : String)
    (paei : PAEIDecision) (energy : EnergyResult) (timeData : Option TimeData)
    (weather : Option WeatherSnap) (forceMorning : Bool) (ctxRecovery : ℚ)
    (todayEvents outdoorPrefs : PVal)
    (h1 : ∀ it ∈ intents, CATEGORY_AGENT_MAP it.category ≠ some "xp_agent")
    (readDomains : List String) (rawText2 : String)
    (h2 : ∀ d ∈ readDomains, READ_DOMAIN_AGENT_MAP d ≠ some "xp_agent") :
    "xp_agent" ∉ ((compileActionBatch intents rawText paei energy timeData weather
        forceMorning ctxRecovery todayEvents outdoorPrefs).dropLast.map (·.agent)) ∧
    "xp_agent" ∉ ((handleReadOnly readDomains rawText2).dropLast.map (·.agent)) := by
  constructor
  · have hstep7 : ∀ i ∈ (intents.foldl (intentLoopStep rawText paei energy timeData)
        ([], [])).1, i.agent ≠ "xp_agent" := by
      intro i hi he
      rcases intentLoop_agents rawText paei energy timeData intents ([], []) i hi with
        h3 | ⟨it, hit, hmap⟩
      · simp at h3
      · rw [he] at hmap
        exact h1 it hit hmap
    have hw : ∀ i ∈ applyWeatherDecisions
        (intents.foldl (intentLoopStep rawText paei energy timeData) ([], [])).1 weather,
        i.agent ≠ "xp_agent" := applyWeather_no_xp hstep7
    have hm : ∀ i ∈ (if forceMorning then
        morningCheckInstr :: applyWeatherDecisions
          (intents.foldl (intentLoopStep rawText paei energy timeData) ([], [])).1 weather
        else applyWeatherDecisions
          (intents.foldl (intentLoopStep rawText paei energy timeData) ([], [])).1 weather),
        i.agent ≠ "xp_agent" := by
      intro i hi
      split_ifs at hi
      · rcases List.mem_cons.mp hi with h3 | h3
        · rw [h3]
          exact show ("weather_agent" : String) ≠ "xp_agent" by decide
        · exact hw i h3
      · exact hw i hi
    have hp := @addProactive_no_xp _ paei ctxRecovery todayEvents outdoorPrefs hm
    exact addXp_dropLast_no_xp hp
  · apply xp_free_dropLast
    intro i hi he
    rcases readOnly_agents rawText2 readDomains [] i hi with h3 | ⟨d, hd, hmap⟩
    · simp at h3
    · rw [he] at hmap
      exact h2 d hd hmap

theorem C1_witness :
    (∀ it ∈ [(⟨"task", "create_task", []⟩ : PIntent)],
      CATEGORY_AGENT_MAP it.category ≠ some "xp_agent") ∧
    (∀ d ∈ ["report"], READ_DOMAIN_AGENT_MAP d ≠ some "xp_agent") ∧
    "xp_agent" ∉ ((compileActionBatch [⟨"task", "create_task", []⟩] "do it"
        ⟨Role.P, 5, "bullet_points", "time-boxed execution", "5min", "high"⟩
        ⟨0.5, "medium", false, "limited", "maintenance"⟩ Option.none Option.none
        false 50 PVal.none PVal.none).dropLast.map (·.agent)) ∧
    "xp_agent" ∉ ((handleReadOnly ["report"] "show report").dropLast.map (·.agent)) := by
  have ha : ∀ it ∈ [(⟨"task", "create_task", []⟩ : PIntent)],
      CATEGORY_AGENT_MAP it.category ≠ some "xp_agent" := by
    intro it hit
    rw [List.mem_singleton.mp hit]
    decide
  have hb : ∀ d ∈ ["report"], READ_DOMAIN_AGENT_MAP d ≠ some "xp_agent" := by
    intro d hd
    rw [List.mem_singleton.mp hd]
    decide
  have h := C1_xp_agent_last [⟨"task", "create_task", []⟩] "do it"
    ⟨Role.P, 5, "bullet_points", "time-boxed execution", "5min", "high"⟩
    ⟨0.5, "medium", false, "limited", "maintenance"⟩ Option.none Option.none
    false 50 PVal.none PVal.none ha ["report"] "show report" hb
  exact ⟨ha, hb, h.1, h.2⟩

theorem freeSlots_fold_len (minDuration : ℚ) :
    ∀ (busy : List (Option ℚ × Option ℚ)) (cur : ℚ) (acc : List Gap),
      (∀ g ∈ acc, minDuration ≤ g.stop - g.start) →
      ∀ g ∈ (busy.foldl (freeSlotsStep minDuration) (cur, acc)).2,
        minDuration ≤ g.stop - g.start := by
  intro busy
  induction busy with
  | nil => intro cur acc h g hg; exact h g hg
  | cons b busy ih =>
    intro cur acc h g hg
    rw [List.foldl_cons] at hg
    rcases b with ⟨bs?, be?⟩
    rcases bs? with _ | bs
    · exact ih cur acc h g hg
    · rcases be? with _ | be
      · exact ih cur acc h g hg
      · rw [show freeSlotsStep minDuration (cur, acc) (some bs, some be) =
            (max cur be, if cur < bs ∧ minDuration ≤ bs - cur
              then acc ++ [⟨cur, bs⟩] else acc) from rfl] at hg
        refine ih (max cur be)
          (if cur < bs ∧ minDuration ≤ bs - cur then acc ++ [⟨cur, bs⟩] else acc)
          ?_ g hg
        intro g2 hg2
        split_ifs at hg2 with hc
        · rcases List.mem_append.mp hg2 with h3 | h3
          · exact h g2 h3
          · rw [List.mem_singleton.mp h3]
            exact hc.2
        · exact h g2 hg2

theorem getFreeSlots_len (busy : List (Option ℚ × Option ℚ))
    (start stop minDuration : ℚ) :
    ∀ g ∈ getFreeSlots busy start stop minDuration,
      minDuration ≤ g.stop - g.start := by
  intro g hg
  unfold getFreeSlots at hg
  dsimp only at hg
  split_ifs at hg with hc
  · rcases List.mem_append.mp hg with h3 | h3
    · exact freeSlots_fold_len minDuration busy start [] (by intro g2 hg2; simp at hg2)
        g h3
    · rw [List.mem_singleton.mp h3]
      exact hc.2
  · exact freeSlots_fold_len minDuration busy start [] (by intro g2 hg2; simp at hg2)
      g hg

theorem foldBest_mem (w : ℚ → ℚ) (role : String) (rec dl : ℚ) :
    ∀ (gaps : List Gap) (acc : ℚ × Option ScoredSlot) (b : ScoredSlot),
      (gaps.foldl (bestSlotStep w role rec dl) acc).2 = some b →
      acc.2 = some b ∨ ∃ g ∈ gaps, b = mkScoredSlot w role rec dl g := by
  intro gaps
  induction gaps with
  | nil => intro acc b h; exact Or.inl h
  | cons g gaps ih =>
    intro acc b h
    rw [List.foldl_cons] at h
    rcases ih _ b h with h1 | h2
    · unfold bestSlotStep at h1
      dsimp only at h1
      split_ifs at h1
      · right
        exact ⟨g, by simp, (Option.some.inj h1).symm⟩
      · exact Or.inl h1
    · obtain ⟨g2, hg2, hb⟩ := h2
      exact Or.inr ⟨g2, by simp [hg2], hb⟩

theorem findOptimalSlot_mem {w : ℚ → ℚ} {role : String} {rec now dl dur : ℚ}
    {busy : List (Option ℚ × Option ℚ)} {b : ScoredSlot}
    (h : findOptimalSlot w role rec now dl dur busy = some b) :
    ∃ g ∈ getFreeSlots busy now dl dur, b = mkScoredSlot w role rec dl g := by
  unfold findOptimalSlot at h
  dsimp only at h
  rcases foldBest_mem w role rec dl (getFreeSlots busy now dl dur)
      (-1.0, Option.none) b h with h1 | h2
  · simp at h1
  · exact h2

/-- C4: any slot returned by `schedule_task` is a computed free gap (hence
fully contained in one) of length at least the requested duration and with
composite score at least 0.3; when no sufficiently long free gap exists, or
the best gap scores below 0.3, the result is "deferred" and no slot is
returned. -/
theorem C4_slot_optimizer (weatherScore : ℚ → ℚ) (paeiRole : Option String)
    (estimatedMinutes deadlineOpt : Option ℚ) (now recovery : ℚ)
    (busy : List (Option ℚ × Option ℚ)) :
    (∀ s, schedule_task weatherScore paeiRole estimatedMinutes deadlineOpt now
        recovery busy = ScheduleResult.blockedTime s →
      (⟨s.start, s.stop⟩ : Gap) ∈ getFreeSlots busy now
          (deadlineOpt.getD (now + 2880)) (estimatedMinutes.getD 30) ∧
      estimatedMinutes.getD 30 ≤ s.stop - s.start ∧
      0.3 ≤ s.score) ∧
    (getFreeSlots busy now (deadlineOpt.getD (now + 2880))
        (estimatedMinutes.getD 30) = [] →
      schedule_task weatherScore paeiRole estimatedMinutes deadlineOpt now
        recovery busy = ScheduleResult.deferred) ∧
    (∀ b, findOptimalSlot weatherScore (paeiRole.getD "P") recovery now
        (deadlineOpt.getD (now + 2880)) (estimatedMinutes.getD 30) busy = some b →
      b.score < 0.3 →
      schedule_task weatherScore paeiRole estimatedMinutes deadlineOpt now
        recovery busy = ScheduleResult.deferred) := by
  refine ⟨?_, ?_, ?_⟩
  · intro s h
    unfold schedule_task at h
    dsimp only at h
    cases hfind : findOptimalSlot weatherScore (paeiRole.getD "P") recovery now
        (deadlineOpt.getD (now + 2880)) (estimatedMinutes.getD 30) busy with
    | none => rw [hfind] at h; simp at h
    | some b =>
      rw [hfind] at h
      dsimp only at h
      split_ifs at h with hs
      injection h with hbs
      obtain ⟨g, hg, hmk⟩ := findOptimalSlot_mem hfind
      have h1 : (⟨s.start, s.stop⟩ : Gap) = g := by
        rw [← hbs, hmk]
        rfl
      refine ⟨h1 ▸ hg, ?_, ?_⟩
      · have h2 := getFreeSlots_len busy now (deadlineOpt.getD (now + 2880))
          (estimatedMinutes.getD 30) g hg
        rw [← h1] at h2
        exact h2
      · rw [← hbs]
        exact not_lt.mp hs
  · intro hempty
    unfold schedule_task
    dsimp only
    cases hfind : findOptimalSlot weatherScore (paeiRole.getD "P") recovery now
        (deadlineOpt.getD (now + 2880)) (estimatedMinutes.getD 30) busy with
    | none => rfl
    | some b =>
      obtain ⟨g, hg, _⟩ := findOptimalSlot_mem hfind
      rw [hempty] at hg
      simp at hg
  · intro b hfind hlt
    unfold schedule_task
    dsimp only
    rw [hfind]
    dsimp only
    rw [if_pos hlt]

theorem C4_witness :
    schedule_task (fun _ => 0.5) (some "P") (some 30) (some 1080) 540 50
        [(some 540, some 720)] =
      ScheduleResult.blockedTime ⟨720, 1080, 0.69, 0.5, false, 0.6, 0.7, 1.0⟩ ∧
    getFreeSlots [(some 540, some 720)] 540 1080 30 = [⟨720, 1080⟩] ∧
    ((⟨(720 : ℚ), 1080⟩ : Gap) ∈ getFreeSlots [(some 540, some 720)] 540
        ((some (1080 : ℚ)).getD (540 + 2880)) ((some (30 : ℚ)).getD 30) ∧
      (some (30 : ℚ)).getD 30 ≤
        (⟨720, 1080, 0.69, 0.5, false, 0.6, 0.7, 1.0⟩ : ScoredSlot).stop -
        (⟨720, 1080, 0.69, 0.5, false, 0.6, 0.7, 1.0⟩ : ScoredSlot).start ∧
      (0.3 : ℚ) ≤ (⟨720, 1080, 0.69, 0.5, false, 0.6, 0.7, 1.0⟩ : ScoredSlot).score) := by
  have hgaps : getFreeSlots [(some 540, some 720)] 540 1080 30 = [⟨720, 1080⟩] := by
    unfold getFreeSlots freeSlotsStep
    norm_num [List.foldl]
  have hhour : hourOf 720 = 12 := by
    norm_num [hourOf]
  have hpaei : scorePaeiTime 720 "P" = 0.6 := by
    unfold scorePaeiTime paeiTimePrefs
    rw [hhour]
    norm_num
  have henergy : scoreEnergyMatch 720 50 = 0.7 := by
    unfold scoreEnergyMatch
    rw [hhour]
    norm_num
  have hdl : scoreDeadlineProximity 720 1080 = 1.0 := by
    unfold scoreDeadlineProximity
    norm_num
  have hmk : mkScoredSlot (fun _ => 0.5) "P" 50 1080 ⟨720, 1080⟩ =
      ⟨720, 1080, 0.69, 0.5, false, 0.6, 0.7, 1.0⟩ := by
    unfold mkScoredSlot
    rw [hpaei, henergy, hdl]
    norm_num
  have hfind : findOptimalSlot (fun _ => 0.5) "P" 50 540 1080 30
      [(some 540, some 720)] = some ⟨720, 1080, 0.69, 0.5, false, 0.6, 0.7, 1.0⟩ := by
    unfold findOptimalSlot
    dsimp only
    rw [hgaps]
    rw [show List.foldl (bestSlotStep (fun _ => 0.5) "P" 50 1080)
        ((-1.0 : ℚ), Option.none) [(⟨720, 1080⟩ : Gap)] =
      bestSlotStep (fun _ => 0.5) "P" 50 1080 ((-1.0 : ℚ), Option.none) ⟨720, 1080⟩
      from rfl]
    unfold bestSlotStep
    rw [show compositeScore (fun _ => 0.5) "P" 50 1080 (720 : ℚ) =
        (0.69 : ℚ) by
      unfold compositeScore
      rw [hpaei, henergy, hdl]
      norm_num]
    rw [if_pos (by norm_num), hmk]
  have heval : schedule_task (fun _ => 0.5) (some "P") (some 30) (some 1080) 540 50
      [(some 540, some 720)] =
      ScheduleResult.blockedTime ⟨720, 1080, 0.69, 0.5, false, 0.6, 0.7, 1.0⟩ := by
    unfold schedule_task
    dsimp only
    simp only [Option.getD_some]
    rw [hfind]
    dsimp only
    rw [if_neg (by norm_num)]
  refine ⟨heval, hgaps, ?_⟩
  have h := (C4_slot_optimizer (fun _ => 0.5) (some "P") (some 30) (some 1080)
    540 50 [(some 540, some 720)]).1 ⟨720, 1080, 0.69, 0.5, false, 0.6, 0.7, 1.0⟩
    (by
      rw [heval])
  exact h

end PresentOS
